import Mathlib

/-
Verification of the Rescue Bots city simulation (rescue_bots_sim.py).

The simulation is embedded shallowly: Python floats are modelled as real
numbers, the shared pseudorandom source is modelled as a stream of draws
in the interval from 0 to 1 (random.uniform a b returns a + (b - a) * u
for a draw u, exactly as CPython implements it), and random.sample is
modelled by passing the sampled index list as a parameter constrained by
the documented contract of random.sample (distinct members of the range).
Python list indexing is modelled with getD and set, which are no-ops out
of range; in the source an out-of-range index would raise, so the two
agree on every state the program actually visits.
-/

namespace RescueBots

/-- A stream of pseudorandom draws; validity (each draw between 0 and 1)
is assumed where a theorem needs it. -/
def RNG : Type := ℕ → ℝ

/-- Advance the stream past one consumed draw. -/
def rdrop (g : RNG) : RNG := fun n => g (n + 1)

/-- random.random(): consume one draw. -/
def randRandom (g : RNG) : ℝ × RNG := (g 0, rdrop g)

/-- random.uniform a b = a + (b - a) * random(). -/
def randUniform (a b : ℝ) (g : RNG) : ℝ × RNG := (a + (b - a) * g 0, rdrop g)

/-- Every draw of the stream lies between 0 and 1. -/
def validRNG (g : RNG) : Prop := ∀ n, 0 ≤ g n ∧ g n ≤ 1

/-- Enum RobotType from the source. -/
inductive RobotType where
  | scout
  | standard
  | heavy
deriving DecidableEq

/-- Dataclass Building. -/
structure Building where
  id : ℕ
  x : ℝ
  y : ℝ
  on_fire : Bool := false
  fire_intensity : ℝ := 0
  fire_start_time : ℝ := 0
  destroyed : Bool := false

instance : Inhabited Building := ⟨⟨0, 0, 0, false, 0, 0, false⟩⟩

/-- Dataclass Robot. -/
structure Robot where
  id : ℕ
  x : ℝ
  y : ℝ
  robot_type : RobotType := RobotType.standard
  speed : ℝ := 10
  target_building : Option ℕ := none
  target_station : Option ℕ := none
  extinguishing : Bool := false
  water_capacity : ℝ := 100
  max_water_capacity : ℝ := 100
  extinguish_rate : ℝ := 5
  fires_extinguished : ℕ := 0
  distance_traveled : ℝ := 0

instance : Inhabited Robot := ⟨⟨0, 0, 0, RobotType.standard, 10, none, none, false, 100, 100, 5, 0, 0⟩⟩

/-- Dataclass Fire. -/
structure Fire where
  building_id : ℕ
  intensity : ℝ
  spread_rate : ℝ
  priority : ℤ := 1

instance : Inhabited Fire := ⟨⟨0, 0, 0, 1⟩⟩

/-- Dataclass WaterStation. -/
structure WaterStation where
  id : ℕ
  x : ℝ
  y : ℝ
  refill_rate : ℝ := 50

instance : Inhabited WaterStation := ⟨⟨0, 0, 0, 50⟩⟩

/-- The mutable state of a RescueBotsSimulation object. -/
structure SimState where
  city_size : ℝ
  num_robots : ℕ
  num_buildings : ℕ
  num_fires : ℕ
  num_stations : ℕ
  buildings : List Building
  robots : List Robot
  fires : List Fire
  water_stations : List WaterStation
  time : ℝ
  dt : ℝ
  total_fires_started : ℕ
  total_fires_extinguished : ℕ
  total_buildings_destroyed : ℕ
  response_times : List ℝ

/-- RescueBotsSimulation.distance: Euclidean distance. -/
noncomputable def distance (x1 y1 x2 y2 : ℝ) : ℝ :=
  Real.sqrt ((x2 - x1) ^ 2 + (y2 - y1) ^ 2)

/-- RescueBotsSimulation._calculate_fire_priority.  The nearby count runs
over all buildings (the site itself included, as in the source). -/
noncomputable def calculate_fire_priority (buildings : List Building) (building_id : ℕ)
    (intensity : ℝ) : ℤ :=
  let building := buildings.getD building_id default
  let nearby_count := buildings.countP (fun b =>
    decide (distance building.x building.y b.x b.y < 15 ∧ b.destroyed = false))
  if intensity > 80 ∧ nearby_count > 10 then 5
  else if intensity > 60 ∨ nearby_count > 7 then 4
  else if intensity > 40 ∨ nearby_count > 4 then 3
  else if intensity > 20 then 2
  else 1

/-- RescueBotsSimulation._start_fire: draw an intensity, compute the
priority, flag the building, append the ActiveFire record (whose
spread rate is drawn at append time, as in the source). -/
noncomputable def start_fire (s : SimState) (g : RNG) (building_id : ℕ) : SimState × RNG :=
  let (intensity, g1) := randUniform 50 100 g
  let priority := calculate_fire_priority s.buildings building_id intensity
  let b := s.buildings.getD building_id default
  let buildings1 := s.buildings.set building_id
    { b with on_fire := true, fire_intensity := intensity, fire_start_time := s.time }
  let (sr, g2) := randUniform 0.5 2 g1
  ({ s with buildings := buildings1,
            fires := s.fires ++ [⟨building_id, intensity, sr, priority⟩] }, g2)

/-- Building-creation loop of _initialize_city: building i gets two
uniform coordinate draws. -/
noncomputable def initBuildings (city_size : ℝ) : ℕ → ℕ → RNG → List Building × RNG
  | 0, _, g => ([], g)
  | n + 1, i, g =>
    let (x, g1) := randUniform 0 city_size g
    let (y, g2) := randUniform 0 city_size g1
    let (rest, g3) := initBuildings city_size n (i + 1) g2
    (⟨i, x, y, false, 0, 0, false⟩ :: rest, g3)

/-- Station-creation loop of _initialize_city: station i sits at the
centre of cell (i mod grid, i div grid) of a grid of the given size,
jittered by uniform(-10, 10) in each axis.  The source computes
grid_size = int(math.sqrt(num_stations)), i.e. the floor square root. -/
noncomputable def initStations (city_size : ℝ) (grid_size : ℕ) : ℕ → ℕ → RNG → List WaterStation × RNG
  | 0, _, g => ([], g)
  | n + 1, i, g =>
    let row := i / grid_size
    let col := i % grid_size
    let x := ((col : ℝ) + 0.5) * (city_size / (grid_size : ℝ))
    let y := ((row : ℝ) + 0.5) * (city_size / (grid_size : ℝ))
    let (jx, g1) := randUniform (-10) 10 g
    let (jy, g2) := randUniform (-10) 10 g1
    let (rest, g3) := initStations city_size grid_size n (i + 1) g2
    (⟨i, x + jx, y + jy, 50⟩ :: rest, g3)

/-- Per-category constants of the robot-creation loop: speed range,
water capacity and extinguish rate.  uniform(a, b) = a + (b - a) * u, so
selecting the bounds first and drawing once is exactly the source's
one speed draw inside each branch. -/
noncomputable def robotProfile (rand : ℝ) : RobotType × ℝ × ℝ × ℝ × ℝ :=
  if rand < 0.2 then (RobotType.scout, 14, 18, 50, 3)
  else if rand < 0.7 then (RobotType.standard, 8, 12, 120, 6)
  else (RobotType.heavy, 5, 8, 250, 10)

/-- Robot-creation loop of _initialize_city: per robot one type draw,
one speed draw, then the two position draws (constructor-argument
order in the source). -/
noncomputable def initRobots (city_size : ℝ) : ℕ → ℕ → RNG → List Robot × RNG
  | 0, _, g => ([], g)
  | n + 1, i, g =>
    let (rand, g1) := randRandom g
    let (rt, lo, hi, water, ext) := robotProfile rand
    let (speed, g2) := randUniform lo hi g1
    let (x, g3) := randUniform 0 city_size g2
    let (y, g4) := randUniform 0 city_size g3
    let (rest, g5) := initRobots city_size n (i + 1) g4
    (⟨i, x, y, rt, speed, none, none, false, water, water, ext, 0, 0⟩ :: rest, g5)

/-- The ignition loop at the end of _initialize_city: start a fire at
each sampled building id in order. -/
noncomputable def igniteList : List ℕ → SimState → RNG → SimState × RNG
  | [], s, g => (s, g)
  | i :: rest, s, g =>
    let (s1, g1) := start_fire s g i
    igniteList rest s1 g1

/-- Constructor configuration of RescueBotsSimulation. -/
structure Config where
  city_size : ℝ
  num_robots : ℕ
  num_buildings : ℕ
  num_fires : ℕ
  num_stations : ℕ

/-- The contract of random.sample(range(nb), nf): nf distinct indices
below nb. -/
def validSample (ids : List ℕ) (nb nf : ℕ) : Prop :=
  ids.Nodup ∧ ids.length = nf ∧ ∀ i ∈ ids, i < nb

/-- RescueBotsSimulation.__init__ together with _initialize_city.  The
list sampled by random.sample is passed as the fireIds parameter. -/
noncomputable def initSim (cfg : Config) (fireIds : List ℕ) (g : RNG) : SimState × RNG :=
  let (bs, g1) := initBuildings cfg.city_size cfg.num_buildings 0 g
  let grid_size := Nat.sqrt cfg.num_stations
  let (sts, g2) := initStations cfg.city_size grid_size cfg.num_stations 0 g1
  let (rbs, g3) := initRobots cfg.city_size cfg.num_robots 0 g2
  let s0 : SimState :=
    { city_size := cfg.city_size
      num_robots := cfg.num_robots
      num_buildings := cfg.num_buildings
      num_fires := cfg.num_fires
      num_stations := cfg.num_stations
      buildings := bs
      robots := rbs
      fires := []
      water_stations := sts
      time := 0
      dt := 0.1
      total_fires_started := 0
      total_fires_extinguished := 0
      total_buildings_destroyed := 0
      response_times := [] }
  let (s1, g4) := igniteList fireIds s0 g3
  ({ s1 with total_fires_started := cfg.num_fires }, g4)

/-- Python min(iterable, key=...) with a strict comparison on keys: the
first element attaining the minimal key wins, because the running best
is replaced only on a strictly smaller key. -/
def minByKey {α β : Type} (key : α → β) (lt : β → β → Prop) [DecidableRel lt] :
    α → List α → α
  | best, [] => best
  | best, x :: xs =>
    if lt (key x) (key best) then minByKey key lt x xs else minByKey key lt best xs

/-- Lexicographic comparison of the composite fire-selection key,
matching Python tuple comparison. -/
def fireKeyLt : ℤ × ℝ → ℤ × ℝ → Prop :=
  fun a b => a.1 < b.1 ∨ (a.1 = b.1 ∧ a.2 < b.2)

noncomputable instance : DecidableRel fireKeyLt := fun a b => by
  unfold fireKeyLt
  infer_instance

/-- The composite key (-priority * 100, distance to the fire's building)
used by assign_targets. -/
noncomputable def fireKey (r : Robot) (buildings : List Building) (f : Fire) : ℤ × ℝ :=
  (-f.priority * 100,
   distance r.x r.y (buildings.getD f.building_id default).x
     (buildings.getD f.building_id default).y)

/-- The candidate filter of assign_targets: fires with positive
intensity whose building is neither destroyed nor out. -/
noncomputable def firesNeedingHelp (fires : List Fire) (buildings : List Building) : List Fire :=
  fires.filter (fun f =>
    decide (f.intensity > 0 ∧ (buildings.getD f.building_id default).destroyed = false ∧
      (buildings.getD f.building_id default).on_fire = true))

/-- The per-robot body of RescueBotsSimulation.assign_targets.  A robot
with a target is left alone (it is not in available_robots).  With an
empty station list Python's min would raise; the embedding leaves the
robot unchanged there, a state the source never reaches without
crashing. -/
noncomputable def assignRobot (s : SimState) (r : Robot) : Robot :=
  if r.target_building = none ∧ r.target_station = none then
    if r.water_capacity < r.max_water_capacity * 0.2 then
      match s.water_stations with
      | [] => r
      | st :: rest =>
        let nearest := minByKey (fun w => distance r.x r.y w.x w.y) (· < ·) st rest
        { r with target_station := some nearest.id }
    else if r.water_capacity > 0 then
      match firesNeedingHelp s.fires s.buildings with
      | [] => r
      | f :: rest =>
        let best := minByKey (fireKey r s.buildings) fireKeyLt f rest
        { r with target_building := some best.building_id }
    else r
  else r

/-- RescueBotsSimulation.assign_targets.  The source snapshots the list
of available robots and then assigns each; no robot's assignment reads
another robot, and fires, stations and buildings are not modified in
the loop, so the pass is a pointwise map. -/
noncomputable def assign_targets (s : SimState) : SimState :=
  { s with robots := s.robots.map (assignRobot s) }

/-- The per-robot body of RescueBotsSimulation.update_robots, returning
the mutated robot and the world state (buildings, fires, counters,
response times) it may have mutated.  The branch that clears a stale
building target issues continue in the source, skipping the
distance-traveled line; every other path adds the displacement of the
tick (zero when the robot acted in place). -/
noncomputable def updateRobot (s : SimState) (r : Robot) : Robot × SimState :=
  match r.target_station with
  | some tsi =>
    let st := s.water_stations.getD tsi default
    let dist := distance r.x r.y st.x st.y
    if dist < 2 then
      let refill_amount := min (st.refill_rate * s.dt) (r.max_water_capacity - r.water_capacity)
      let w1 := r.water_capacity + refill_amount
      let ts1 := if w1 ≥ r.max_water_capacity * 0.95 then none else r.target_station
      ({ r with water_capacity := w1, target_station := ts1,
                distance_traveled := r.distance_traveled + distance r.x r.y r.x r.y }, s)
    else
      let move_dist := min (r.speed * s.dt) dist
      let nx := r.x + (st.x - r.x) / dist * move_dist
      let ny := r.y + (st.y - r.y) / dist * move_dist
      ({ r with x := nx, y := ny,
                distance_traveled := r.distance_traveled + distance r.x r.y nx ny }, s)
  | none =>
    match r.target_building with
    | some tbi =>
      let b := s.buildings.getD tbi default
      if b.destroyed = true ∨ b.on_fire = false then
        ({ r with target_building := none }, s)
      else
        let dist := distance r.x r.y b.x b.y
        if dist < 1 then
          if b.on_fire = true ∧ r.water_capacity > 0 then
            let extinguish_amount :=
              min (r.extinguish_rate * s.dt) (min b.fire_intensity r.water_capacity)
            let newI := b.fire_intensity - extinguish_amount
            let w1 := r.water_capacity - extinguish_amount
            if newI ≤ 0 then
              let b1 := { b with on_fire := false, fire_intensity := 0 }
              ({ r with water_capacity := w1,
                        fires_extinguished := r.fires_extinguished + 1,
                        target_building := none,
                        distance_traveled := r.distance_traveled + distance r.x r.y r.x r.y },
               { s with buildings := s.buildings.set tbi b1,
                        total_fires_extinguished := s.total_fires_extinguished + 1,
                        response_times := s.response_times ++ [s.time - b.fire_start_time],
                        fires := s.fires.filter (fun f => f.building_id != tbi) })
            else
              let b1 := { b with fire_intensity := newI }
              ({ r with water_capacity := w1,
                        distance_traveled := r.distance_traveled + distance r.x r.y r.x r.y },
               { s with buildings := s.buildings.set tbi b1 })
          else
            ({ r with target_building := none,
                      distance_traveled := r.distance_traveled + distance r.x r.y r.x r.y }, s)
        else
          let move_dist := min (r.speed * s.dt) dist
          let nx := r.x + (b.x - r.x) / dist * move_dist
          let ny := r.y + (b.y - r.y) / dist * move_dist
          ({ r with x := nx, y := ny,
                    distance_traveled := r.distance_traveled + distance r.x r.y nx ny }, s)
    | none =>
      ({ r with distance_traveled := r.distance_traveled + distance r.x r.y r.x r.y }, s)

/-- The robot loop: robots are processed in order, each seeing the world
state left by the previous one; robots never read other robots here. -/
noncomputable def updateRobotsAux : List Robot → SimState → List Robot × SimState
  | [], s => ([], s)
  | r :: rs, s =>
    let (r1, s1) := updateRobot s r
    let (rs1, s2) := updateRobotsAux rs s1
    (r1 :: rs1, s2)

/-- RescueBotsSimulation.update_robots. -/
noncomputable def update_robots (s : SimState) : SimState :=
  let (rbs, s1) := updateRobotsAux s.robots s
  { s1 with robots := rbs }

/-- RescueBotsSimulation._try_spread_fire: among non-burning,
non-destroyed other buildings within radius 8, pick the nearest (first
minimum wins) and queue it with probability 0.15 * (1 - dist / 8). -/
noncomputable def try_spread_fire (buildings : List Building) (src : Building)
    (new_fires : List ℕ) (g : RNG) : List ℕ × RNG :=
  let potential_targets := buildings.filter (fun b =>
    decide (¬ b.id = src.id ∧ b.on_fire = false ∧ b.destroyed = false ∧
      distance src.x src.y b.x b.y < 8))
  match potential_targets with
  | [] => (new_fires, g)
  | b :: rest =>
    let best := minByKey (fun t => distance src.x src.y t.x t.y) (· < ·) b rest
    let d := distance src.x src.y best.x best.y
    let spread_prob := 0.15 * (1 - d / 8)
    let (u, g1) := randRandom g
    if u < spread_prob then (new_fires ++ [best.id], g1) else (new_fires, g1)

/-- The per-fire body of RescueBotsSimulation.update_fires.  Growth is
capped at 200 and mirrored to the fire record; the destruction branch
flags the building and issues continue - the fire record itself stays
in the list (the source only has a comment about removing it).  A
random draw for the spread gate is consumed only when no robot targets
the building (Python short-circuit). -/
noncomputable def updateFire (time dt : ℝ) (robots : List Robot)
    (buildings : List Building) (destroyed_count : ℕ) (new_fires : List ℕ) (g : RNG)
    (fire : Fire) : Fire × List Building × ℕ × List ℕ × RNG :=
  let b := buildings.getD fire.building_id default
  if b.on_fire = true ∧ b.destroyed = false then
    let capped := min (b.fire_intensity + fire.spread_rate * dt * 0.7) 200
    let fire1 := { fire with intensity := capped }
    if capped > 180 ∧ time - b.fire_start_time > 45 then
      let b2 := { b with fire_intensity := capped, destroyed := true, on_fire := false }
      (fire1, buildings.set fire.building_id b2, destroyed_count + 1, new_fires, g)
    else
      let b1 := { b with fire_intensity := capped }
      let buildings1 := buildings.set fire.building_id b1
      let robots_nearby := robots.countP (fun r => decide (r.target_building = some b.id))
      if robots_nearby = 0 then
        let (u, g1) := randRandom g
        if u < 0.0001 * dt * capped then
          let (nf, g2) := try_spread_fire buildings1 b1 new_fires g1
          (fire1, buildings1, destroyed_count, nf, g2)
        else (fire1, buildings1, destroyed_count, new_fires, g1)
      else (fire1, buildings1, destroyed_count, new_fires, g)
  else
    (fire, buildings, destroyed_count, new_fires, g)

/-- The fire loop of update_fires, threading buildings, the destroyed
counter, the spread queue and the random source. -/
noncomputable def updateFiresAux (time dt : ℝ) (robots : List Robot) :
    List Fire → List Building → ℕ → List ℕ → RNG →
    List Fire × List Building × ℕ × List ℕ × RNG
  | [], bs, dc, nf, g => ([], bs, dc, nf, g)
  | f :: fs, bs, dc, nf, g =>
    let (f1, bs1, dc1, nf1, g1) := updateFire time dt robots bs dc nf g f
    let (fs1, bs2, dc2, nf2, g2) := updateFiresAux time dt robots fs bs1 dc1 nf1 g1
    (f1 :: fs1, bs2, dc2, nf2, g2)

/-- The queued-ignition loop at the end of update_fires: each queued
building not already on fire is ignited and the started counter is
bumped. -/
noncomputable def igniteNew : List ℕ → SimState → RNG → SimState × RNG
  | [], s, g => (s, g)
  | i :: rest, s, g =>
    if (s.buildings.getD i default).on_fire = false then
      let (s1, g1) := start_fire s g i
      igniteNew rest { s1 with total_fires_started := s1.total_fires_started + 1 } g1
    else igniteNew rest s g

/-- RescueBotsSimulation.update_fires. -/
noncomputable def update_fires (s : SimState) (g : RNG) : SimState × RNG :=
  let (fs1, bs1, dc1, nf, g1) :=
    updateFiresAux s.time s.dt s.robots s.fires s.buildings s.total_buildings_destroyed [] g
  let s1 := { s with fires := fs1, buildings := bs1, total_buildings_destroyed := dc1 }
  igniteNew nf s1 g1

/-- RescueBotsSimulation.step: assign, move and act, evolve fires,
advance the clock. -/
noncomputable def step (s : SimState) (g : RNG) : SimState × RNG :=
  let s1 := assign_targets s
  let s2 := update_robots s1
  let (s3, g1) := update_fires s2 g
  ({ s3 with time := s3.time + s3.dt }, g1)

/-- Several consecutive ticks, threading the random source. -/
noncomputable def stepN : ℕ → SimState → RNG → SimState × RNG
  | 0, s, g => (s, g)
  | n + 1, s, g => stepN n (step s g).1 (step s g).2

/-- States the program can be in: a freshly initialized world, or the
result of one tick on a reachable state, with every random draw in
range and the fire sample obeying the random.sample contract. -/
inductive Reachable : SimState → Prop
  | init (cfg : Config) (ids : List ℕ) (g : RNG) :
      validRNG g → validSample ids cfg.num_buildings cfg.num_fires →
      Reachable (initSim cfg ids g).1
  | tick (s : SimState) (g : RNG) :
      Reachable s → validRNG g → Reachable (step s g).1

theorem distance_nonneg (x1 y1 x2 y2 : ℝ) : 0 ≤ distance x1 y1 x2 y2 :=
  Real.sqrt_nonneg _

theorem distance_self (x y : ℝ) : distance x y x y = 0 := by
  simp [distance]

theorem minByKey_mem {α β : Type} (key : α → β) (lt : β → β → Prop) [DecidableRel lt]
    (b : α) (l : List α) : minByKey key lt b l ∈ b :: l := by
  induction l generalizing b with
  | nil => simp [minByKey]
  | cons x xs ih =>
    rw [minByKey]
    split
    · have := ih x
      simp only [List.mem_cons] at this ⊢
      tauto
    · have := ih b
      simp only [List.mem_cons] at this ⊢
      tauto

theorem minByKey_spec {α β : Type} (key : α → β) (lt : β → β → Prop) [DecidableRel lt]
    (Hirr : ∀ a, ¬ lt a a)
    (Htr : ∀ a b c, lt a b → lt b c → lt a c)
    (Hlt : ∀ a b c, lt a b → ¬ lt c b → lt a c)
    (b : α) (l : List α) :
    ∃ i : ℕ, ∃ h : i < (b :: l).length,
      minByKey key lt b l = (b :: l).get ⟨i, h⟩ ∧
      (∀ y ∈ b :: l, ¬ lt (key y) (key (minByKey key lt b l))) ∧
      (∀ j, ∀ hj : j < i, lt (key (minByKey key lt b l))
        (key ((b :: l).get ⟨j, Nat.lt_trans hj h⟩))) := by
  induction l generalizing b with
  | nil =>
    refine ⟨0, by simp, by simp [minByKey], ?_, ?_⟩
    · intro y hy
      simp only [List.mem_singleton] at hy
      subst hy
      simp only [minByKey]
      exact Hirr _
    · intro j hj
      omega
  | cons x xs ih =>
    rw [minByKey]
    split
    · rename_i hxb
      obtain ⟨i, hi, heq, hmin, hfirst⟩ := ih x
      refine ⟨i + 1, by simpa using hi, by simpa using heq, ?_, ?_⟩
      · intro y hy
        simp only [List.mem_cons] at hy
        rcases hy with hy | hy | hy
        · subst hy
          intro hcon
          -- the result is no worse than x, and x beats b
          have hresx : ¬ lt (key x) (key (minByKey key lt x xs)) :=
            hmin x (by simp)
          exact hresx (Htr _ _ _ hxb hcon)
        · exact hmin y (by simp [hy])
        · exact hmin y (by simp [hy])
      · intro j hj
        match j, hj with
        | 0, _ =>
          -- position 0 holds b; the result beats x which beats b
          rcases Nat.eq_zero_or_pos i with hi0 | hipos
          · subst hi0
            have : minByKey key lt x xs = x := by simpa using heq
            rw [this]
            simpa using hxb
          · have hx0 := hfirst 0 hipos
            simp only [List.get] at hx0
            simpa using Htr _ _ _ hx0 hxb
        | j + 1, hj =>
          have := hfirst j (by omega)
          simpa using this
    · rename_i hxb
      obtain ⟨i, hi, heq, hmin, hfirst⟩ := ih b
      match i, hi with
      | 0, hi =>
        have heq0 : minByKey key lt b xs = b := by simpa using heq
        refine ⟨0, by simp, by simpa using heq0, ?_, ?_⟩
        · intro y hy
          simp only [List.mem_cons] at hy
          rcases hy with hy | hy | hy
          · subst hy
            rw [heq0]
            exact Hirr _
          · subst hy
            rw [heq0]
            exact hxb
          · exact hmin y (by simp [hy])
        · intro j hj
          omega
      | i + 1, hi =>
        refine ⟨i + 2, by simpa using hi, by simpa using heq, ?_, ?_⟩
        · intro y hy
          simp only [List.mem_cons] at hy
          rcases hy with hy | hy | hy
          · subst hy
            exact hmin y (by simp)
          · subst hy
            -- the result strictly beats b (it sits past position 0), and x does not beat b
            have hres_b : lt (key (minByKey key lt b xs)) (key b) := by
              have := hfirst 0 (by omega)
              simpa using this
            intro hcon
            exact Hirr _ (Htr _ _ _ hcon (Hlt _ _ _ hres_b hxb))
          · exact hmin y (by simp [hy])
        · intro j hj
          match j, hj with
          | 0, _ =>
            have := hfirst 0 (by omega)
            simpa using this
          | 1, _ =>
            have hres_b : lt (key (minByKey key lt b xs)) (key b) := by
              have := hfirst 0 (by omega)
              simpa using this
            simpa using Hlt _ _ _ hres_b hxb
          | j + 2, hj =>
            have := hfirst (j + 1) (by omega)
            simpa using this

/-- Claim C9: the Motion and Action Integrator never divides by a zero
distance: a robot exactly coincident with its station or building target
(distance zero) falls inside the arrival radius and acts in place, its
position unchanged, and whenever the movement branch is reached the
guard forces the distance to be at least the (positive) arrival radius,
so the normalizing division is well-defined. -/
theorem C9_zero_distance_safe :
    (∀ (s : SimState) (r : Robot) (tsi : ℕ), r.target_station = some tsi →
      distance r.x r.y (s.water_stations.getD tsi default).x
        (s.water_stations.getD tsi default).y = 0 →
      (updateRobot s r).1.x = r.x ∧ (updateRobot s r).1.y = r.y) ∧
    (∀ (s : SimState) (r : Robot) (tbi : ℕ), r.target_station = none →
      r.target_building = some tbi →
      distance r.x r.y (s.buildings.getD tbi default).x
        (s.buildings.getD tbi default).y = 0 →
      (updateRobot s r).1.x = r.x ∧ (updateRobot s r).1.y = r.y) ∧
    (∀ x1 y1 x2 y2 c : ℝ, 0 < c → ¬ distance x1 y1 x2 y2 < c →
      distance x1 y1 x2 y2 ≠ 0) := by
  refine ⟨?_, ?_, ?_⟩
  · intro s r tsi hts hdist
    simp only [updateRobot, hts]
    rw [if_pos (by rw [hdist]; norm_num)]
    exact ⟨rfl, rfl⟩
  · intro s r tbi hts htb hdist
    simp only [updateRobot, hts, htb]
    split
    · exact ⟨rfl, rfl⟩
    · rw [if_pos (by rw [hdist]; norm_num)]
      split
      · split
        · exact ⟨rfl, rfl⟩
        · exact ⟨rfl, rfl⟩
      · exact ⟨rfl, rfl⟩
  · intro x1 y1 x2 y2 c hc hnot
    have := distance_nonneg x1 y1 x2 y2
    intro h0
    rw [h0] at hnot
    exact hnot hc

/-- Witness for C9: a robot standing exactly on its target station acts
in place. -/
theorem C9_zero_distance_safe_witness :
    (updateRobot
      { city_size := 200, num_robots := 1, num_buildings := 0, num_fires := 0,
        num_stations := 1, buildings := [], robots := [], fires := [],
        water_stations := [⟨0, 0, 0, 50⟩], time := 0, dt := 0.1,
        total_fires_started := 0, total_fires_extinguished := 0,
        total_buildings_destroyed := 0, response_times := [] }
      { id := 0, x := 0, y := 0, target_station := some 0 }).1.x =
      ({ id := 0, x := 0, y := 0, target_station := some 0 } : Robot).x ∧
    (updateRobot
      { city_size := 200, num_robots := 1, num_buildings := 0, num_fires := 0,
        num_stations := 1, buildings := [], robots := [], fires := [],
        water_stations := [⟨0, 0, 0, 50⟩], time := 0, dt := 0.1,
        total_fires_started := 0, total_fires_extinguished := 0,
        total_buildings_destroyed := 0, response_times := [] }
      { id := 0, x := 0, y := 0, target_station := some 0 }).1.y =
      ({ id := 0, x := 0, y := 0, target_station := some 0 } : Robot).y :=
  C9_zero_distance_safe.1 _ _ 0 rfl (by simpa using distance_self 0 0)

theorem getD_map_of_lt {α β : Type} [Inhabited α] [Inhabited β] (f : α → β) (l : List α)
    (i : ℕ) (h : i < l.length) :
    (l.map f).getD i default = f (l.getD i default) := by
  rw [List.getD_eq_getElem?_getD, List.getElem?_map, List.getD_eq_getElem?_getD,
    List.getElem?_eq_getElem h]
  simp

theorem fireKeyLt_irrefl (a : ℤ × ℝ) : ¬ fireKeyLt a a := by
  simp [fireKeyLt]

theorem fireKeyLt_trans (a b c : ℤ × ℝ) (h1 : fireKeyLt a b) (h2 : fireKeyLt b c) :
    fireKeyLt a c := by
  rcases h1 with h1 | ⟨h1, h1'⟩ <;> rcases h2 with h2 | ⟨h2, h2'⟩
  · exact Or.inl (lt_trans h1 h2)
  · exact Or.inl (by omega)
  · exact Or.inl (by omega)
  · exact Or.inr ⟨by omega, lt_trans h1' h2'⟩

theorem fireKeyLt_of_lt_of_not_lt (a b c : ℤ × ℝ) (h1 : fireKeyLt a b)
    (h2 : ¬ fireKeyLt c b) : fireKeyLt a c := by
  rw [fireKeyLt, not_or, not_and] at h2
  obtain ⟨h2a, h2b⟩ := h2
  rcases h1 with h1 | ⟨h1, h1'⟩
  · exact Or.inl (by omega)
  · rcases lt_or_eq_of_le (not_lt.1 h2a) with hbc | hbc
    · exact Or.inl (by omega)
    · refine Or.inr ⟨by omega, ?_⟩
      have := h2b hbc.symm
      push_neg at this
      linarith

/-- The station the low-water branch is specified to pick: a station of
the list, at minimal distance from the robot, and strictly closer than
every station listed before it (first encountered minimum wins). -/
def IsFirstNearest (r : Robot) (stations : List WaterStation) (st : WaterStation) : Prop :=
  ∃ i : ℕ, ∃ h : i < stations.length,
    st = stations.get ⟨i, h⟩ ∧
    (∀ w ∈ stations, distance r.x r.y st.x st.y ≤ distance r.x r.y w.x w.y) ∧
    ∀ j, ∀ hj : j < i, distance r.x r.y st.x st.y <
      distance r.x r.y (stations.get ⟨j, Nat.lt_trans hj h⟩).x
        (stations.get ⟨j, Nat.lt_trans hj h⟩).y

/-- Conclusion of claim C6 at robot slot i: the assignment pass leaves
the robot without a fire target and points it at the first-encountered
nearest station. -/
def LowWaterRedirected (s : SimState) (i : ℕ) : Prop :=
  ((assign_targets s).robots.getD i default).target_building = none ∧
  ∃ st : WaterStation, IsFirstNearest (s.robots.getD i default) s.water_stations st ∧
    ((assign_targets s).robots.getD i default).target_station = some st.id

/-- Claim C6: an untargeted robot whose water is below 20 percent of its
maximum is redirected to the nearest station (Euclidean distance, first
encountered minimum on ties) and gets no fire target on that pass,
whatever the fires are. -/
theorem C6_low_water_redirect (s : SimState) (i : ℕ) (hi : i < s.robots.length)
    (h1 : (s.robots.getD i default).target_building = none)
    (h2 : (s.robots.getD i default).target_station = none)
    (h3 : (s.robots.getD i default).water_capacity <
      (s.robots.getD i default).max_water_capacity * 0.2)
    (h4 : s.water_stations ≠ []) :
    LowWaterRedirected s i := by
  have hmap : (assign_targets s).robots.getD i default =
      assignRobot s (s.robots.getD i default) := by
    rw [assign_targets]
    exact getD_map_of_lt _ _ i hi
  cases hsts : s.water_stations with
  | nil => exact absurd hsts h4
  | cons st rest =>
    have hassign : assignRobot s (s.robots.getD i default) =
        { s.robots.getD i default with
          target_station :=
            some (minByKey (fun w => distance (s.robots.getD i default).x
              (s.robots.getD i default).y w.x w.y) (· < ·) st rest).id } := by
      rw [assignRobot, if_pos ⟨h1, h2⟩, if_pos h3, hsts]
    obtain ⟨j, hj, heq, hmin, hfirst⟩ :=
      minByKey_spec (fun w => distance (s.robots.getD i default).x
          (s.robots.getD i default).y w.x w.y) (· < ·)
        (fun a => lt_irrefl a) (fun a b c h h' => lt_trans h h')
        (fun a b c h h' => lt_of_lt_of_le h (not_lt.1 h')) st rest
    constructor
    · rw [hmap, hassign]
      exact h1
    · refine ⟨minByKey (fun w => distance (s.robots.getD i default).x
        (s.robots.getD i default).y w.x w.y) (· < ·) st rest, ?_, ?_⟩
      · rw [hsts]
        exact ⟨j, hj, heq, fun w hw => not_lt.1 (hmin w hw), hfirst⟩
      · rw [hmap, hassign]

/-- The fire the fire-targeting branch is specified to pick: a candidate
(positive intensity, building on fire and not destroyed) minimizing the
composite key (-100 * priority, distance), i.e. no candidate has a
lexicographically smaller key. -/
def IsBestFire (r : Robot) (fires : List Fire) (buildings : List Building) (f : Fire) : Prop :=
  f ∈ firesNeedingHelp fires buildings ∧
  ∀ f' ∈ firesNeedingHelp fires buildings,
    ¬ fireKeyLt (fireKey r buildings f') (fireKey r buildings f)

/-- Conclusion of claim C7 at robot slot i: the assignment pass gives
the robot the building of a key-minimal candidate fire and no station
target. -/
def BestFireAssigned (s : SimState) (i : ℕ) : Prop :=
  ((assign_targets s).robots.getD i default).target_station = none ∧
  ∃ f : Fire, IsBestFire (s.robots.getD i default) s.fires s.buildings f ∧
    ((assign_targets s).robots.getD i default).target_building = some f.building_id

/-- Claim C7: an untargeted robot with enough water that is assigned a
fire receives a candidate minimizing the lexicographic key
(-100 * priority, Euclidean distance to the fire's building): highest
priority first, nearest distance as tie-break. -/
theorem C7_best_fire (s : SimState) (i : ℕ) (hi : i < s.robots.length)
    (h1 : (s.robots.getD i default).target_building = none)
    (h2 : (s.robots.getD i default).target_station = none)
    (h3 : ¬ (s.robots.getD i default).water_capacity <
      (s.robots.getD i default).max_water_capacity * 0.2)
    (h4 : (s.robots.getD i default).water_capacity > 0)
    (h5 : firesNeedingHelp s.fires s.buildings ≠ []) :
    BestFireAssigned s i := by
  have hmap : (assign_targets s).robots.getD i default =
      assignRobot s (s.robots.getD i default) := by
    rw [assign_targets]
    exact getD_map_of_lt _ _ i hi
  cases hfs : firesNeedingHelp s.fires s.buildings with
  | nil => exact absurd hfs h5
  | cons f rest =>
    have hassign : assignRobot s (s.robots.getD i default) =
        { s.robots.getD i default with
          target_building :=
            some (minByKey (fireKey (s.robots.getD i default) s.buildings)
              fireKeyLt f rest).building_id } := by
      rw [assignRobot, if_pos ⟨h1, h2⟩, if_neg h3, if_pos h4, hfs]
    obtain ⟨j, hj, heq, hmin, hfirst⟩ :=
      minByKey_spec (fireKey (s.robots.getD i default) s.buildings) fireKeyLt
        fireKeyLt_irrefl fireKeyLt_trans fireKeyLt_of_lt_of_not_lt f rest
    constructor
    · rw [hmap, hassign]
      exact h2
    · refine ⟨minByKey (fireKey (s.robots.getD i default) s.buildings) fireKeyLt f rest,
        ⟨?_, ?_⟩, ?_⟩
      · rw [hfs]
        exact minByKey_mem _ _ f rest
      · rw [hfs]
        exact hmin
      · rw [hmap, hassign]

theorem distance_eval (x1 y1 x2 y2 d : ℝ) (hd : 0 ≤ d)
    (h : (x2 - x1) ^ 2 + (y2 - y1) ^ 2 = d ^ 2) : distance x1 y1 x2 y2 = d := by
  rw [distance, h, Real.sqrt_sq hd]

/-- A one-robot, two-station scene: the robot is low on water, station 0
is five units away and station 1 one unit away. -/
noncomputable def lowWaterScene : SimState :=
  { city_size := 200, num_robots := 1, num_buildings := 0, num_fires := 0,
    num_stations := 2, buildings := [],
    robots := [{ id := 0, x := 0, y := 0, water_capacity := 10, max_water_capacity := 100 }],
    fires := [], water_stations := [⟨0, 5, 0, 50⟩, ⟨1, 1, 0, 50⟩], time := 0, dt := 0.1,
    total_fires_started := 0, total_fires_extinguished := 0,
    total_buildings_destroyed := 0, response_times := [] }

/-- Witness for C6: in the scene the low-water robot is redirected, and
concretely it is pointed at station 1, the nearer of the two. -/
theorem C6_low_water_redirect_witness :
    LowWaterRedirected lowWaterScene 0 ∧
    ((assign_targets lowWaterScene).robots.getD 0 default).target_station = some 1 := by
  have hd1 : distance 0 0 1 0 = 1 := distance_eval _ _ _ _ 1 (by norm_num) (by norm_num)
  have hd5 : distance 0 0 5 0 = 5 := distance_eval _ _ _ _ 5 (by norm_num) (by norm_num)
  constructor
  · exact C6_low_water_redirect lowWaterScene 0 (by simp [lowWaterScene])
      (by simp [lowWaterScene]) (by simp [lowWaterScene])
      (by simp [lowWaterScene]; norm_num) (by simp [lowWaterScene])
  · have hmap : (assign_targets lowWaterScene).robots.getD 0 default =
        assignRobot lowWaterScene (lowWaterScene.robots.getD 0 default) := by
      rw [assign_targets]
      exact getD_map_of_lt _ _ 0 (by simp [lowWaterScene])
    rw [hmap]
    simp only [assignRobot]
    rw [if_pos (by simp [lowWaterScene]), if_pos (by norm_num [lowWaterScene])]
    norm_num [lowWaterScene, minByKey, hd1, hd5]

/-- A one-robot, two-fire scene: equal priority 3, the fire listed first
is on the building seven units away, the second on the building three
units away. -/
noncomputable def tieBreakScene : SimState :=
  { city_size := 200, num_robots := 1, num_buildings := 2, num_fires := 2,
    num_stations := 0,
    buildings := [⟨0, 3, 0, true, 50, 0, false⟩, ⟨1, 7, 0, true, 50, 0, false⟩],
    robots := [{ id := 0, x := 0, y := 0, water_capacity := 100, max_water_capacity := 100 }],
    fires := [⟨1, 50, 1, 3⟩, ⟨0, 50, 1, 3⟩], water_stations := [], time := 0, dt := 0.1,
    total_fires_started := 2, total_fires_extinguished := 0,
    total_buildings_destroyed := 0, response_times := [] }

/-- Witness for C7: in the scene a key-minimal fire is assigned, and
concretely the distance-3 fire (building 0) wins the equal-priority
tie against the distance-7 fire. -/
theorem C7_best_fire_witness :
    BestFireAssigned tieBreakScene 0 ∧
    ((assign_targets tieBreakScene).robots.getD 0 default).target_building = some 0 := by
  have hd3 : distance 0 0 3 0 = 3 := distance_eval _ _ _ _ 3 (by norm_num) (by norm_num)
  have hd7 : distance 0 0 7 0 = 7 := distance_eval _ _ _ _ 7 (by norm_num) (by norm_num)
  have hfnh : firesNeedingHelp tieBreakScene.fires tieBreakScene.buildings =
      [⟨1, 50, 1, 3⟩, ⟨0, 50, 1, 3⟩] := by
    simp only [tieBreakScene, firesNeedingHelp, List.filter_cons, List.filter_nil,
      List.getD_cons_zero, List.getD_cons_succ, decide_eq_true_eq]
    norm_num
  constructor
  · exact C7_best_fire tieBreakScene 0 (by simp [tieBreakScene])
      (by simp [tieBreakScene]) (by simp [tieBreakScene])
      (by norm_num [tieBreakScene]) (by norm_num [tieBreakScene])
      (by rw [hfnh]; simp)
  · have hmap : (assign_targets tieBreakScene).robots.getD 0 default =
        assignRobot tieBreakScene (tieBreakScene.robots.getD 0 default) := by
      rw [assign_targets]
      exact getD_map_of_lt _ _ 0 (by simp [tieBreakScene])
    rw [hmap]
    simp only [assignRobot]
    rw [if_pos (by simp [tieBreakScene]), if_neg (by norm_num [tieBreakScene]),
      if_pos (by norm_num [tieBreakScene]), hfnh]
    norm_num [tieBreakScene, minByKey, fireKey, fireKeyLt, hd3, hd7]

/-- A constant half stream: a valid random source. -/
noncomputable def gHalf : RNG := fun _ => 1 / 2

/-- A lone building burning at intensity 190 since time 0, observed at
time 50: the destruction rule fires on the next fire-evolution pass. -/
noncomputable def destructionScene : SimState :=
  { city_size := 200, num_robots := 0, num_buildings := 1, num_fires := 1,
    num_stations := 0, buildings := [⟨0, 0, 0, true, 190, 0, false⟩], robots := [],
    fires := [⟨0, 190, 1, 5⟩], water_stations := [], time := 50, dt := 0.1,
    total_fires_started := 1, total_fires_extinguished := 0,
    total_buildings_destroyed := 0, response_times := [] }

/-- Claim C1 (failing input): when the destruction rule triggers, the
source only flags the building and continues - the ActiveFire record is
left in the fire list (the removal announced in the comment never
happens).  After one fire-evolution pass on the scene the building is
destroyed and no longer on fire, yet the fire list still holds one
record, so the active-fire count (1) differs from the on-fire structure
count (0). -/
theorem C1_destruction_keeps_fire_record :
    (update_fires destructionScene gHalf).1.fires.length = 1 ∧
    (update_fires destructionScene gHalf).1.buildings.countP (fun b => b.on_fire) = 0 ∧
    ((update_fires destructionScene gHalf).1.buildings.getD 0 default).destroyed = true ∧
    (update_fires destructionScene gHalf).1.total_buildings_destroyed = 1 := by
  have hgrow : min ((190 : ℝ) + 1 * 0.1 * 0.7) 200 = 190.07 := by
    rw [min_eq_left (by norm_num)]
    norm_num
  norm_num [update_fires, updateFiresAux, updateFire, igniteNew, destructionScene, hgrow]

theorem stepN_succ_of (n : ℕ) {s s' : SimState} {g g' : RNG} (h : step s g = (s', g')) :
    stepN (n + 1) s g = stepN n s' g' := by
  show stepN n (step s g).1 (step s g).2 = stepN n s' g'
  rw [h]

/-- The extinguishment scenario of the spec: one robot with extinguish
rate 10 within arrival distance of the one burning building, targeting
it; I is the current intensity, sr the fire's spread rate, w the
robot's water, k its extinguished counter and c the world counter. -/
noncomputable def extScenario (rx ry bx byy w I t t0 sr : ℝ) (k c : ℕ) (resp : List ℝ) :
    SimState :=
  { city_size := 200, num_robots := 1, num_buildings := 1, num_fires := 1,
    num_stations := 0, buildings := [⟨0, bx, byy, true, I, t0, false⟩],
    robots := [⟨0, rx, ry, RobotType.standard, 10, some 0, none, false, w, 200, 10, k, 0⟩],
    fires := [⟨0, I, sr, 1⟩], water_stations := [], time := t, dt := 0.1,
    total_fires_started := 1, total_fires_extinguished := c,
    total_buildings_destroyed := 0, response_times := resp }

/-- One tick of the scenario while more than one intensity unit is left:
the robot removes exactly min(rate * dt) = 1 unit, then the fire grows
by spread_rate * dt * 0.7. -/
theorem extScenario_step_burning (rx ry bx byy w I t t0 sr : ℝ) (k c : ℕ)
    (resp : List ℝ) (g : RNG)
    (hdist : distance rx ry bx byy < 1) (hI1 : 1 < I) (hI2 : I ≤ 5)
    (hw : 1 ≤ w) (hsr1 : 0 ≤ sr) (hsr2 : sr ≤ 2) :
    step (extScenario rx ry bx byy w I t t0 sr k c resp) g =
      (extScenario rx ry bx byy (w - 1) (I - 1 + sr * 0.1 * 0.7) (t + 0.1) t0 sr k c resp,
       g) := by
  have hamt : min ((10 : ℝ) * 0.1) (min I w) = 1 := by
    rw [show (10 : ℝ) * 0.1 = 1 by norm_num]
    exact min_eq_left (le_min (by linarith) hw)
  have hcap : min (I - 1 + sr * 0.1 * 0.7) 200 = I - 1 + sr * 0.1 * 0.7 :=
    min_eq_left (by linarith)
  have hassign : assign_targets (extScenario rx ry bx byy w I t t0 sr k c resp) =
      extScenario rx ry bx byy w I t t0 sr k c resp := by
    simp only [assign_targets, extScenario, List.map_cons, List.map_nil, assignRobot]
    rw [if_neg (by simp)]
  have hur : update_robots (extScenario rx ry bx byy w I t t0 sr k c resp) =
      { extScenario rx ry bx byy w I t t0 sr k c resp with
        robots := [⟨0, rx, ry, RobotType.standard, 10, some 0, none, false, w - 1, 200,
          10, k, 0⟩],
        buildings := [⟨0, bx, byy, true, I - 1, t0, false⟩] } := by
    simp only [update_robots, updateRobotsAux, updateRobot, extScenario,
      List.getD_cons_zero, List.set_cons_zero]
    rw [if_neg (by simp), if_pos hdist, if_pos ⟨by simp, by linarith⟩, hamt,
      if_neg (by linarith : ¬ (I - 1 ≤ 0))]
    simp [distance_self]
  have huf : update_fires
      ({ extScenario rx ry bx byy w I t t0 sr k c resp with
        robots := [⟨0, rx, ry, RobotType.standard, 10, some 0, none, false, w - 1, 200,
          10, k, 0⟩],
        buildings := [⟨0, bx, byy, true, I - 1, t0, false⟩] }) g =
      (extScenario rx ry bx byy (w - 1) (I - 1 + sr * 0.1 * 0.7) t t0 sr k c resp, g) := by
    simp only [update_fires, updateFiresAux, updateFire, extScenario,
      List.getD_cons_zero, List.set_cons_zero]
    rw [if_pos ⟨by simp, by simp⟩, hcap, if_neg (by rintro ⟨hcon, -⟩; linarith)]
    simp only [List.countP_cons, List.countP_nil, decide_eq_true_eq]
    rw [if_neg (by simp)]
    simp only [igniteNew, extScenario]
  show ({ (update_fires (update_robots (assign_targets
      (extScenario rx ry bx byy w I t t0 sr k c resp))) g).1 with
        time := (update_fires (update_robots (assign_targets
          (extScenario rx ry bx byy w I t t0 sr k c resp))) g).1.time +
          (update_fires (update_robots (assign_targets
            (extScenario rx ry bx byy w I t t0 sr k c resp))) g).1.dt },
    (update_fires (update_robots (assign_targets
      (extScenario rx ry bx byy w I t t0 sr k c resp))) g).2) = _
  rw [hassign, hur, huf]
  simp only [extScenario]

/-- The last tick of the scenario: one intensity unit left, the robot
removes it, the fire record is deleted, all three extinguishment
records are bumped together. -/
theorem extScenario_step_final (rx ry bx byy w t t0 : ℝ) (k c : ℕ)
    (resp : List ℝ) (g : RNG)
    (hdist : distance rx ry bx byy < 1) (hw : 1 ≤ w) :
    step (extScenario rx ry bx byy w 1 t t0 0 k c resp) g =
      ({ city_size := 200, num_robots := 1, num_buildings := 1, num_fires := 1,
         num_stations := 0, buildings := [⟨0, bx, byy, false, 0, t0, false⟩],
         robots := [⟨0, rx, ry, RobotType.standard, 10, none, none, false, w - 1, 200,
           10, k + 1, 0⟩],
         fires := [], water_stations := [], time := t + 0.1, dt := 0.1,
         total_fires_started := 1, total_fires_extinguished := c + 1,
         total_buildings_destroyed := 0, response_times := resp ++ [t - t0] }, g) := by
  have hamt : min ((10 : ℝ) * 0.1) (min 1 w) = 1 := by
    rw [show (10 : ℝ) * 0.1 = 1 by norm_num, min_eq_left hw]
    exact min_self 1
  have hassign : assign_targets (extScenario rx ry bx byy w 1 t t0 0 k c resp) =
      extScenario rx ry bx byy w 1 t t0 0 k c resp := by
    simp only [assign_targets, extScenario, List.map_cons, List.map_nil, assignRobot]
    rw [if_neg (by simp)]
  have hur : update_robots (extScenario rx ry bx byy w 1 t t0 0 k c resp) =
      { extScenario rx ry bx byy w 1 t t0 0 k c resp with
        robots := [⟨0, rx, ry, RobotType.standard, 10, none, none, false, w - 1, 200,
          10, k + 1, 0⟩],
        buildings := [⟨0, bx, byy, false, 0, t0, false⟩],
        fires := [],
        total_fires_extinguished := c + 1,
        response_times := resp ++ [t - t0] } := by
    simp only [update_robots, updateRobotsAux, updateRobot, extScenario,
      List.getD_cons_zero, List.set_cons_zero]
    rw [if_neg (by simp), if_pos hdist, if_pos ⟨by simp, by linarith⟩, hamt,
      if_pos (by norm_num : (1 : ℝ) - 1 ≤ 0)]
    simp [distance_self]
  have huf : update_fires
      ({ extScenario rx ry bx byy w 1 t t0 0 k c resp with
        robots := [⟨0, rx, ry, RobotType.standard, 10, none, none, false, w - 1, 200,
          10, k + 1, 0⟩],
        buildings := [⟨0, bx, byy, false, 0, t0, false⟩],
        fires := [],
        total_fires_extinguished := c + 1,
        response_times := resp ++ [t - t0] }) g =
      ({ city_size := 200, num_robots := 1, num_buildings := 1, num_fires := 1,
         num_stations := 0, buildings := [⟨0, bx, byy, false, 0, t0, false⟩],
         robots := [⟨0, rx, ry, RobotType.standard, 10, none, none, false, w - 1, 200,
           10, k + 1, 0⟩],
         fires := [], water_stations := [], time := t, dt := 0.1,
         total_fires_started := 1, total_fires_extinguished := c + 1,
         total_buildings_destroyed := 0, response_times := resp ++ [t - t0] }, g) := by
    simp only [update_fires, updateFiresAux, igniteNew, extScenario]
  show ({ (update_fires (update_robots (assign_targets
      (extScenario rx ry bx byy w 1 t t0 0 k c resp))) g).1 with
        time := (update_fires (update_robots (assign_targets
          (extScenario rx ry bx byy w 1 t t0 0 k c resp))) g).1.time +
          (update_fires (update_robots (assign_targets
            (extScenario rx ry bx byy w 1 t t0 0 k c resp))) g).1.dt },
    (update_fires (update_robots (assign_targets
      (extScenario rx ry bx byy w 1 t t0 0 k c resp))) g).2) = _
  rw [hassign, hur, huf]

/-- Claim C2 (counterexample): in the spec's scenario with a fire whose
spread rate is 1 (spread rates are drawn from the range 0.5 to 2), one
tick leaves intensity 4.07, not exactly 4.0 - the Fire Evolution pass
running after the extinguish action regrows the fire by
spread_rate * dt * 0.7. -/
theorem C2_one_tick_not_exactly_four :
    ((stepN 1 (extScenario 0 0 0 0 100 5 0 0 1 0 0 []) gHalf).1.buildings.getD 0
      default).fire_intensity = 4.07 ∧
    ¬ ((stepN 1 (extScenario 0 0 0 0 100 5 0 0 1 0 0 []) gHalf).1.buildings.getD 0
      default).fire_intensity = 4 := by
  have e1 := extScenario_step_burning 0 0 0 0 100 5 0 0 1 0 0 [] gHalf
    (by rw [distance_self]; norm_num) (by norm_num) (by norm_num) (by norm_num)
    (by norm_num) (by norm_num)
  have h1 : stepN 1 (extScenario 0 0 0 0 100 5 0 0 1 0 0 []) gHalf =
      (extScenario 0 0 0 0 (100 - 1) (5 - 1 + 1 * 0.1 * 0.7) (0 + 0.1) 0 1 0 0 [], gHalf) :=
    (stepN_succ_of 0 e1).trans rfl
  rw [h1]
  constructor
  · simp only [extScenario, List.getD_cons_zero]
    norm_num
  · simp only [extScenario, List.getD_cons_zero]
    norm_num

/-- Claim C2 (amended): with the regrowth term absent (spread rate 0,
equivalently reading the intensity before the Fire Evolution pass of
the tick), the spec's scenario behaves exactly as stated: one tick
leaves intensity 4.0 with the structure still on fire, and five ticks
extinguish it - intensity 0, flag cleared, the robot's counter up by
exactly one. -/
theorem C2_extinguishment_amended (rx ry bx byy w t t0 : ℝ) (g : RNG)
    (hdist : distance rx ry bx byy < 1) (hw : 5 ≤ w) :
    ((stepN 1 (extScenario rx ry bx byy w 5 t t0 0 0 0 []) g).1.buildings.getD 0
      default).fire_intensity = 4 ∧
    ((stepN 1 (extScenario rx ry bx byy w 5 t t0 0 0 0 []) g).1.buildings.getD 0
      default).on_fire = true ∧
    ((stepN 5 (extScenario rx ry bx byy w 5 t t0 0 0 0 []) g).1.buildings.getD 0
      default).fire_intensity ≤ 0 ∧
    ((stepN 5 (extScenario rx ry bx byy w 5 t t0 0 0 0 []) g).1.buildings.getD 0
      default).on_fire = false ∧
    ((stepN 5 (extScenario rx ry bx byy w 5 t t0 0 0 0 []) g).1.robots.getD 0
      default).fires_extinguished = 1 := by
  have e1 : step (extScenario rx ry bx byy w 5 t t0 0 0 0 []) g =
      (extScenario rx ry bx byy (w - 1) 4 (t + 0.1) t0 0 0 0 [], g) := by
    rw [extScenario_step_burning rx ry bx byy w 5 t t0 0 0 0 [] g hdist (by norm_num)
      (by norm_num) (by linarith) (by norm_num) (by norm_num)]
    norm_num
  have e2 : step (extScenario rx ry bx byy (w - 1) 4 (t + 0.1) t0 0 0 0 []) g =
      (extScenario rx ry bx byy (w - 1 - 1) 3 (t + 0.1 + 0.1) t0 0 0 0 [], g) := by
    rw [extScenario_step_burning rx ry bx byy (w - 1) 4 (t + 0.1) t0 0 0 0 [] g hdist
      (by norm_num) (by norm_num) (by linarith) (by norm_num) (by norm_num)]
    norm_num
  have e3 : step (extScenario rx ry bx byy (w - 1 - 1) 3 (t + 0.1 + 0.1) t0 0 0 0 []) g =
      (extScenario rx ry bx byy (w - 1 - 1 - 1) 2 (t + 0.1 + 0.1 + 0.1) t0 0 0 0 [], g) := by
    rw [extScenario_step_burning rx ry bx byy (w - 1 - 1) 3 (t + 0.1 + 0.1) t0 0 0 0 [] g
      hdist (by norm_num) (by norm_num) (by linarith) (by norm_num) (by norm_num)]
    norm_num
  have e4 : step (extScenario rx ry bx byy (w - 1 - 1 - 1) 2 (t + 0.1 + 0.1 + 0.1) t0
        0 0 0 []) g =
      (extScenario rx ry bx byy (w - 1 - 1 - 1 - 1) 1 (t + 0.1 + 0.1 + 0.1 + 0.1) t0
        0 0 0 [], g) := by
    rw [extScenario_step_burning rx ry bx byy (w - 1 - 1 - 1) 2 (t + 0.1 + 0.1 + 0.1) t0
      0 0 0 [] g hdist (by norm_num) (by norm_num) (by linarith) (by norm_num) (by norm_num)]
    norm_num
  have e5 := extScenario_step_final rx ry bx byy (w - 1 - 1 - 1 - 1)
    (t + 0.1 + 0.1 + 0.1 + 0.1) t0 0 0 [] g hdist (by linarith)
  have h1 : stepN 1 (extScenario rx ry bx byy w 5 t t0 0 0 0 []) g =
      (extScenario rx ry bx byy (w - 1) 4 (t + 0.1) t0 0 0 0 [], g) :=
    (stepN_succ_of 0 e1).trans rfl
  have h5 : stepN 5 (extScenario rx ry bx byy w 5 t t0 0 0 0 []) g =
      ({ city_size := 200, num_robots := 1, num_buildings := 1, num_fires := 1,
         num_stations := 0, buildings := [⟨0, bx, byy, false, 0, t0, false⟩],
         robots := [⟨0, rx, ry, RobotType.standard, 10, none, none, false,
           w - 1 - 1 - 1 - 1 - 1, 200, 10, 0 + 1, 0⟩],
         fires := [], water_stations := [], time := t + 0.1 + 0.1 + 0.1 + 0.1 + 0.1,
         dt := 0.1, total_fires_started := 1, total_fires_extinguished := 0 + 1,
         total_buildings_destroyed := 0,
         response_times := [] ++ [t + 0.1 + 0.1 + 0.1 + 0.1 - t0] }, g) :=
    (stepN_succ_of 4 e1).trans ((stepN_succ_of 3 e2).trans ((stepN_succ_of 2 e3).trans
      ((stepN_succ_of 1 e4).trans ((stepN_succ_of 0 e5).trans rfl))))
  rw [h1, h5]
  refine ⟨?_, ?_, ?_, ?_, ?_⟩
  · simp only [extScenario, List.getD_cons_zero]
  · simp only [extScenario, List.getD_cons_zero]
  · simp only [List.getD_cons_zero]
    exact le_refl _
  · simp only [List.getD_cons_zero]
  · simp only [List.getD_cons_zero]

/-- Witness for the amended C2: the robot standing on the building with
100 water. -/
theorem C2_extinguishment_amended_witness :
    ((stepN 1 (extScenario 0 0 0 0 100 5 0 0 0 0 0 []) gHalf).1.buildings.getD 0
      default).fire_intensity = 4 ∧
    ((stepN 1 (extScenario 0 0 0 0 100 5 0 0 0 0 0 []) gHalf).1.buildings.getD 0
      default).on_fire = true ∧
    ((stepN 5 (extScenario 0 0 0 0 100 5 0 0 0 0 0 []) gHalf).1.buildings.getD 0
      default).fire_intensity ≤ 0 ∧
    ((stepN 5 (extScenario 0 0 0 0 100 5 0 0 0 0 0 []) gHalf).1.buildings.getD 0
      default).on_fire = false ∧
    ((stepN 5 (extScenario 0 0 0 0 100 5 0 0 0 0 0 []) gHalf).1.robots.getD 0
      default).fires_extinguished = 1 :=
  C2_extinguishment_amended 0 0 0 0 100 0 0 gHalf
    (by rw [distance_self]; norm_num) (by norm_num)

/-- The grid size the spec asks for, from its words: the side of the
smallest square grid whose cell count covers n. -/
def specGridSize (n : ℕ) : ℕ :=
  if Nat.sqrt n * Nat.sqrt n = n then Nat.sqrt n else Nat.sqrt n + 1

/-- specGridSize is exactly the least k with n <= k * k. -/
theorem specGridSize_least (n : ℕ) :
    n ≤ specGridSize n * specGridSize n ∧ ∀ k, n ≤ k * k → specGridSize n ≤ k := by
  unfold specGridSize
  split
  · rename_i h
    refine ⟨le_of_eq h.symm, fun k hk => ?_⟩
    have := Nat.sqrt_le_sqrt hk
    rwa [Nat.sqrt_eq k] at this
  · rename_i h
    refine ⟨le_of_lt (Nat.lt_succ_sqrt n), fun k hk => ?_⟩
    by_contra hc
    push_neg at hc
    have hk_le : k ≤ Nat.sqrt n := by omega
    have h1 : k * k ≤ Nat.sqrt n * Nat.sqrt n := Nat.mul_le_mul hk_le hk_le
    have h2 : Nat.sqrt n * Nat.sqrt n ≤ n := Nat.sqrt_le n
    omega

theorem validRNG_rdrop {g : RNG} (h : validRNG g) : validRNG (rdrop g) :=
  fun n => h (n + 1)

theorem validRNG_initBuildings (city : ℝ) :
    ∀ (n i : ℕ) (g : RNG), validRNG g → validRNG (initBuildings city n i g).2 := by
  intro n
  induction n with
  | zero => intro i g hg; exact hg
  | succ m ih =>
    intro i g hg
    exact ih (i + 1) _ (validRNG_rdrop (validRNG_rdrop hg))

/-- Exactly where station i of the creation loop sits: cell
(start + i mod gs, start + i div gs) of the floor-sqrt grid, plus the
two jitters drawn from positions 2i and 2i+1 of the stream. -/
theorem initStations_getD_eq (city : ℝ) (gs : ℕ) :
    ∀ (n start i : ℕ), i < n → ∀ g : RNG,
    (initStations city gs n start g).1.getD i default =
      ⟨start + i,
       ((((start + i) % gs : ℕ) : ℝ) + 0.5) * (city / (gs : ℝ)) + (-10 + 20 * g (2 * i)),
       ((((start + i) / gs : ℕ) : ℝ) + 0.5) * (city / (gs : ℝ)) + (-10 + 20 * g (2 * i + 1)),
       50⟩ := by
  intro n
  induction n with
  | zero => intro start i hi; omega
  | succ m ih =>
    intro start i hi g
    match i, hi with
    | 0, _ =>
      simp only [initStations, randUniform, rdrop, List.getD_cons_zero]
      norm_num
    | j + 1, hi =>
      have hlt : j < m := by omega
      simp only [initStations, randUniform, List.getD_cons_succ]
      rw [ih (start + 1) j hlt (rdrop (rdrop g))]
      have harg : start + 1 + j = start + (j + 1) := by omega
      have hg1 : (rdrop (rdrop g)) (2 * j) = g (2 * (j + 1)) := by
        show g (2 * j + 1 + 1) = g (2 * (j + 1))
        rw [show 2 * j + 1 + 1 = 2 * (j + 1) from by omega]
      have hg2 : (rdrop (rdrop g)) (2 * j + 1) = g (2 * (j + 1) + 1) := by
        show g (2 * j + 1 + 1 + 1) = g (2 * (j + 1) + 1)
        rw [show 2 * j + 1 + 1 + 1 = 2 * (j + 1) + 1 from by omega]
      rw [harg, hg1, hg2]

theorem igniteList_stations :
    ∀ (ids : List ℕ) (s : SimState) (g : RNG),
    (igniteList ids s g).1.water_stations = s.water_stations := by
  intro ids
  induction ids with
  | nil => intro s g; rfl
  | cons i rest ih =>
    intro s g
    show (igniteList rest _ _).1.water_stations = _
    rw [ih]

theorem initSim_stations (cfg : Config) (ids : List ℕ) (g : RNG) :
    (initSim cfg ids g).1.water_stations =
      (initStations cfg.city_size (Nat.sqrt cfg.num_stations) cfg.num_stations 0
        (initBuildings cfg.city_size cfg.num_buildings 0 g).2).1 := by
  show (igniteList ids _ _).1.water_stations = _
  rw [igniteList_stations]

/-- Conclusion of the amended C3 at station slot i: the station sits at
the centre of cell (i mod g, i div g) of the grid with side
g = floor(sqrt(num_stations)), jittered by at most 10 in each axis. -/
def StationOnFloorGrid (cfg : Config) (ids : List ℕ) (g : RNG) (i : ℕ) : Prop :=
  ∃ jx jy : ℝ, |jx| ≤ 10 ∧ |jy| ≤ 10 ∧
    (initSim cfg ids g).1.water_stations.getD i default =
      ⟨i, (((i % Nat.sqrt cfg.num_stations : ℕ) : ℝ) + 0.5) *
            (cfg.city_size / (Nat.sqrt cfg.num_stations : ℝ)) + jx,
          (((i / Nat.sqrt cfg.num_stations : ℕ) : ℝ) + 0.5) *
            (cfg.city_size / (Nat.sqrt cfg.num_stations : ℝ)) + jy, 50⟩

/-- The configuration of the source's example run, robots and buildings
left out: five stations. -/
noncomputable def cfgFiveStations : Config := ⟨200, 0, 0, 0, 5⟩

/-- Claim C3 (counterexample): initialization uses the floor square
root, not the smallest covering grid.  With the default five stations
the grid is 2 x 2, not 3 x 3, and station 4 lands at y = 250 - off the
200-unit city and more than any +-10 jitter away from the cell centre
(y = 100) of the ceiling grid the claim describes. -/
theorem C3_floor_not_ceil_grid :
    ((initSim cfgFiveStations [] gHalf).1.water_stations.getD 4 default).y = 250 ∧
    Nat.sqrt 5 ≠ specGridSize 5 ∧
    |(250 : ℝ) - ((((4 : ℕ) / specGridSize 5 : ℕ) : ℝ) + 0.5) *
      (200 / (specGridSize 5 : ℝ))| > 10 := by
  have hsq : Nat.sqrt 5 = 2 := (Nat.eq_sqrt.2 ⟨by norm_num, by norm_num⟩).symm
  have hspec : specGridSize 5 = 3 := by
    unfold specGridSize
    rw [hsq]
    norm_num
  refine ⟨?_, by rw [hsq, hspec]; norm_num, ?_⟩
  · rw [initSim_stations]
    have hb : (initBuildings cfgFiveStations.city_size cfgFiveStations.num_buildings 0
        gHalf).2 = gHalf := rfl
    rw [hb]
    have h5 : cfgFiveStations.num_stations = 5 := rfl
    rw [h5, hsq, show cfgFiveStations.city_size = (200 : ℝ) from rfl]
    rw [initStations_getD_eq 200 2 5 0 4 (by omega) gHalf]
    show ((((4 : ℕ) / 2 : ℕ) : ℝ) + 0.5) * ((200 : ℝ) / (2 : ℕ)) +
      (-10 + 20 * gHalf (2 * 4 + 1)) = 250
    norm_num [gHalf]
  · rw [hspec]
    norm_num

/-- Claim C3 (amended): for every configuration with at least one
station, every random stream with draws in range, and every station
slot, initialization places the station at the centre of cell
(i mod g, i div g) of the g x g grid over the city with
g = floor(sqrt(num_stations)), plus a jitter of at most +-10 per axis;
for non-square station counts the trailing stations fall in rows below
the grid, possibly outside the city. -/
theorem C3_station_grid_amended (cfg : Config) (ids : List ℕ) (g : RNG) (i : ℕ)
    (hg : validRNG g) (hi : i < cfg.num_stations) :
    StationOnFloorGrid cfg ids g i := by
  have hg1 : validRNG (initBuildings cfg.city_size cfg.num_buildings 0 g).2 :=
    validRNG_initBuildings cfg.city_size cfg.num_buildings 0 g hg
  refine ⟨-10 + 20 * (initBuildings cfg.city_size cfg.num_buildings 0 g).2 (2 * i),
          -10 + 20 * (initBuildings cfg.city_size cfg.num_buildings 0 g).2 (2 * i + 1),
          ?_, ?_, ?_⟩
  · obtain ⟨hlo, hhi⟩ := hg1 (2 * i)
    rw [abs_le]
    constructor <;> linarith
  · obtain ⟨hlo, hhi⟩ := hg1 (2 * i + 1)
    rw [abs_le]
    constructor <;> linarith
  · rw [initSim_stations]
    rw [initStations_getD_eq cfg.city_size (Nat.sqrt cfg.num_stations)
      cfg.num_stations 0 i hi]
    norm_num

/-- Witness for the amended C3: station 0 of the five-station
configuration under the constant half stream. -/
theorem C3_station_grid_amended_witness : StationOnFloorGrid cfgFiveStations [] gHalf 0 :=
  C3_station_grid_amended cfgFiveStations [] gHalf 0
    (fun n => by norm_num [gHalf]) (by norm_num [cfgFiveStations])

theorem getD_set_ne {α : Type} [Inhabited α] :
    ∀ (l : List α) (i j : ℕ) (v : α), i ≠ j →
    (l.set i v).getD j default = l.getD j default := by
  intro l
  induction l with
  | nil => intro i j v _; rfl
  | cons a as ih =>
    intro i j v h
    match i, j with
    | 0, 0 => omega
    | 0, j + 1 => simp [List.set_cons_zero, List.getD_cons_succ]
    | i + 1, 0 => simp [List.set_cons_succ, List.getD_cons_zero]
    | i + 1, j + 1 =>
      simp only [List.set_cons_succ, List.getD_cons_succ]
      exact ih i j v (by omega)

theorem countP_set_true {α : Type} [Inhabited α] (p : α → Bool) :
    ∀ (l : List α) (i : ℕ) (v : α), i < l.length →
    p (l.getD i default) = false → p v = true →
    (l.set i v).countP p = l.countP p + 1 := by
  intro l
  induction l with
  | nil => intro i v hi _ _; simp at hi
  | cons a as ih =>
    intro i v hi hold hnew
    match i with
    | 0 =>
      rw [List.set_cons_zero, List.countP_cons, List.countP_cons]
      rw [List.getD_cons_zero] at hold
      rw [hold, hnew]
      simp
    | i + 1 =>
      rw [List.set_cons_succ, List.countP_cons, List.countP_cons]
      rw [List.getD_cons_succ] at hold
      have := ih i v (by simpa using hi) hold hnew
      omega

theorem start_fire_shape (s : SimState) (g : RNG) (i : ℕ) :
    (start_fire s g i).1.buildings =
      s.buildings.set i { s.buildings.getD i default with
                          on_fire := true,
                          fire_intensity := 50 + (100 - 50) * g 0,
                          fire_start_time := s.time } ∧
    (start_fire s g i).1.fires = s.fires ++
      [⟨i, 50 + (100 - 50) * g 0, 0.5 + (2 - 0.5) * (rdrop g) 0,
        calculate_fire_priority s.buildings i (50 + (100 - 50) * g 0)⟩] :=
  ⟨rfl, rfl⟩

/-- The ignition loop: with fresh distinct in-range ids it adds exactly
one on-fire structure and one fire record per id, in order. -/
theorem igniteList_spec :
    ∀ (ids : List ℕ) (s : SimState) (g : RNG),
    (∀ i ∈ ids, i < s.buildings.length) →
    (∀ i ∈ ids, (s.buildings.getD i default).on_fire = false) →
    ids.Nodup →
    (igniteList ids s g).1.buildings.countP (fun b => b.on_fire) =
      s.buildings.countP (fun b => b.on_fire) + ids.length ∧
    (igniteList ids s g).1.fires.map (fun f => f.building_id) =
      s.fires.map (fun f => f.building_id) ++ ids := by
  intro ids
  induction ids with
  | nil =>
    intro s g _ _ _
    constructor
    · rfl
    · simp [igniteList]
  | cons i rest ih =>
    intro s g hlen hoff hnd
    have hi_len : i < s.buildings.length := hlen i (by simp)
    have hi_off : (s.buildings.getD i default).on_fire = false := hoff i (by simp)
    obtain ⟨hb, hf⟩ := start_fire_shape s g i
    have hcount1 : (start_fire s g i).1.buildings.countP (fun b => b.on_fire) =
        s.buildings.countP (fun b => b.on_fire) + 1 := by
      rw [hb]
      exact countP_set_true _ s.buildings i _ hi_len (by simpa using hi_off) rfl
    have hlen1 : ∀ j ∈ rest, j < (start_fire s g i).1.buildings.length := by
      intro j hj
      rw [hb, List.length_set]
      exact hlen j (by simp [hj])
    have hoff1 : ∀ j ∈ rest, ((start_fire s g i).1.buildings.getD j default).on_fire
        = false := by
      intro j hj
      rw [hb, getD_set_ne]
      · exact hoff j (by simp [hj])
      · intro hij
        subst hij
        exact (List.nodup_cons.1 hnd).1 hj
    obtain ⟨hc, hm⟩ := ih (start_fire s g i).1 (start_fire s g i).2 hlen1 hoff1
      (List.nodup_cons.1 hnd).2
    constructor
    · show (igniteList rest (start_fire s g i).1 (start_fire s g i).2).1.buildings.countP
        (fun b => b.on_fire) = _
      rw [hc, hcount1, List.length_cons]
      omega
    · show (igniteList rest (start_fire s g i).1 (start_fire s g i).2).1.fires.map
        (fun f => f.building_id) = _
      rw [hm, hf]
      simp

theorem initBuildings_length (city : ℝ) :
    ∀ (n i : ℕ) (g : RNG), (initBuildings city n i g).1.length = n := by
  intro n
  induction n with
  | zero => intro i g; rfl
  | succ m ih =>
    intro i g
    show ((⟨i, _, _, false, 0, 0, false⟩ : Building) ::
      (initBuildings city m (i + 1) _).1).length = m + 1
    rw [List.length_cons, ih]

theorem initBuildings_not_on_fire (city : ℝ) :
    ∀ (n i : ℕ) (g : RNG) (b : Building), b ∈ (initBuildings city n i g).1 →
    b.on_fire = false := by
  intro n
  induction n with
  | zero => intro i g b hb; simp [initBuildings] at hb
  | succ m ih =>
    intro i g b hb
    show b.on_fire = false
    rw [show (initBuildings city (m + 1) i g).1 = ⟨i, _, _, false, 0, 0, false⟩ ::
      (initBuildings city m (i + 1) (rdrop (rdrop g))).1 from rfl] at hb
    rcases List.mem_cons.1 hb with hb | hb
    · rw [hb]
    · exact ih (i + 1) _ b hb

/-- Conclusion of claim C8: right after initialization the ignited
structure ids are exactly the sampled ones with no duplicates, and the
number of on-fire structures equals the requested fire count. -/
def InitIgnitionOk (cfg : Config) (ids : List ℕ) (g : RNG) : Prop :=
  (initSim cfg ids g).1.fires.map (fun f => f.building_id) = ids ∧
  ((initSim cfg ids g).1.fires.map (fun f => f.building_id)).Nodup ∧
  (initSim cfg ids g).1.buildings.countP (fun b => b.on_fire) = cfg.num_fires

/-- Claim C8: initialization ignites each sampled structure exactly
once - the ignited set has no duplicates and the on-fire count equals
num_fires (the random.sample contract ensures distinct in-range ids,
which forces num_fires <= num_buildings). -/
theorem C8_init_ignition (cfg : Config) (ids : List ℕ) (g : RNG)
    (hs : validSample ids cfg.num_buildings cfg.num_fires) :
    InitIgnitionOk cfg ids g := by
  obtain ⟨hnd, hcard, hrange⟩ := hs
  set s0 : SimState :=
    { city_size := cfg.city_size
      num_robots := cfg.num_robots
      num_buildings := cfg.num_buildings
      num_fires := cfg.num_fires
      num_stations := cfg.num_stations
      buildings := (initBuildings cfg.city_size cfg.num_buildings 0 g).1
      robots := (initRobots cfg.city_size cfg.num_robots 0
        (initStations cfg.city_size (Nat.sqrt cfg.num_stations) cfg.num_stations 0
          (initBuildings cfg.city_size cfg.num_buildings 0 g).2).2).1
      fires := []
      water_stations := (initStations cfg.city_size (Nat.sqrt cfg.num_stations)
        cfg.num_stations 0 (initBuildings cfg.city_size cfg.num_buildings 0 g).2).1
      time := 0
      dt := 0.1
      total_fires_started := 0
      total_fires_extinguished := 0
      total_buildings_destroyed := 0
      response_times := [] } with hs0
  have hglen : ∀ i ∈ ids, i < s0.buildings.length := by
    intro i hi
    rw [hs0]
    show i < (initBuildings cfg.city_size cfg.num_buildings 0 g).1.length
    rw [initBuildings_length]
    exact hrange i hi
  have hgoff : ∀ i ∈ ids, (s0.buildings.getD i default).on_fire = false := by
    intro i hi
    have hmem : s0.buildings.getD i default ∈ s0.buildings := by
      rw [List.getD_eq_getElem?_getD, List.getElem?_eq_getElem (hglen i hi)]
      exact List.getElem_mem _
    exact initBuildings_not_on_fire cfg.city_size cfg.num_buildings 0 g _ hmem
  obtain ⟨hc, hm⟩ := igniteList_spec ids s0
    (initRobots cfg.city_size cfg.num_robots 0
      (initStations cfg.city_size (Nat.sqrt cfg.num_stations) cfg.num_stations 0
        (initBuildings cfg.city_size cfg.num_buildings 0 g).2).2).2 hglen hgoff hnd
  have hcount0 : s0.buildings.countP (fun b => b.on_fire) = 0 := by
    rw [List.countP_eq_zero]
    intro b hb
    simp [initBuildings_not_on_fire cfg.city_size cfg.num_buildings 0 g b hb]
  have hfin1 : (initSim cfg ids g).1.fires.map (fun f => f.building_id) = ids := by
    show (igniteList ids s0 _).1.fires.map (fun f => f.building_id) = ids
    rw [hm]
    simp
  refine ⟨hfin1, ?_, ?_⟩
  · rw [hfin1]
    exact hnd
  · show (igniteList ids s0 _).1.buildings.countP (fun b => b.on_fire) = cfg.num_fires
    rw [hc, hcount0, hcard]
    omega

/-- Witness for C8: one building, one fire, sample list with the single
index 0. -/
theorem C8_init_ignition_witness : InitIgnitionOk ⟨200, 0, 1, 1, 0⟩ [0] gHalf :=
  C8_init_ignition ⟨200, 0, 1, 1, 0⟩ [0] gHalf
    ⟨by simp, by simp, by simp⟩

/-- Claim C4's property: every robot's water is within bounds. -/
def WaterOk (s : SimState) : Prop :=
  ∀ r ∈ s.robots, 0 ≤ r.water_capacity ∧ r.water_capacity ≤ r.max_water_capacity

/-- Claim C5's property: no robot holds both target kinds. -/
def TargetsOk (s : SimState) : Prop :=
  ∀ r ∈ s.robots, r.target_building = none ∨ r.target_station = none

/-- Claim C10's property: the world counter, the per-robot counters and
the recorded response times agree. -/
def CountersOk (s : SimState) : Prop :=
  s.total_fires_extinguished = (s.robots.map (fun r => r.fires_extinguished)).sum ∧
  s.total_fires_extinguished = s.response_times.length

/-- The auxiliary sign facts that make the three properties inductive:
nonnegative extinguish rates, refill rates, spread rates, fire
intensities and timestep. -/
def RatesOk (s : SimState) : Prop :=
  (∀ r ∈ s.robots, 0 ≤ r.extinguish_rate) ∧
  (∀ st ∈ s.water_stations, 0 ≤ st.refill_rate) ∧
  (∀ f ∈ s.fires, 0 ≤ f.spread_rate) ∧
  (∀ b ∈ s.buildings, 0 ≤ b.fire_intensity) ∧
  0 ≤ s.dt

/-- The inductive invariant of the simulation. -/
def Inv (s : SimState) : Prop := WaterOk s ∧ RatesOk s ∧ TargetsOk s ∧ CountersOk s

theorem getD_mem_of_lt {α : Type} [Inhabited α] (l : List α) (i : ℕ) (h : i < l.length) :
    l.getD i default ∈ l := by
  rw [List.getD_eq_getElem?_getD, List.getElem?_eq_getElem h]
  exact List.getElem_mem _

theorem building_getD_intensity_nonneg (l : List Building)
    (h : ∀ b ∈ l, 0 ≤ b.fire_intensity) (i : ℕ) :
    0 ≤ (l.getD i default).fire_intensity := by
  rcases lt_or_ge i l.length with hi | hi
  · exact h _ (getD_mem_of_lt l i hi)
  · rw [List.getD_eq_getElem?_getD, List.getElem?_eq_none (by omega)]
    exact le_refl 0

theorem station_getD_refill_nonneg (l : List WaterStation)
    (h : ∀ st ∈ l, 0 ≤ st.refill_rate) (i : ℕ) :
    0 ≤ (l.getD i default).refill_rate := by
  rcases lt_or_ge i l.length with hi | hi
  · exact h _ (getD_mem_of_lt l i hi)
  · rw [List.getD_eq_getElem?_getD, List.getElem?_eq_none (by omega)]
    show (0 : ℝ) ≤ 50
    norm_num

theorem assignRobot_fields (s : SimState) (r : Robot) :
    (assignRobot s r).water_capacity = r.water_capacity ∧
    (assignRobot s r).max_water_capacity = r.max_water_capacity ∧
    (assignRobot s r).extinguish_rate = r.extinguish_rate ∧
    (assignRobot s r).fires_extinguished = r.fires_extinguished := by
  unfold assignRobot
  split_ifs <;> first
    | exact ⟨rfl, rfl, rfl, rfl⟩
    | (split <;> exact ⟨rfl, rfl, rfl, rfl⟩)

theorem assignRobot_targets (s : SimState) (r : Robot)
    (h : r.target_building = none ∨ r.target_station = none) :
    (assignRobot s r).target_building = none ∨
    (assignRobot s r).target_station = none := by
  unfold assignRobot
  split_ifs with h1 h2 h3
  · cases hsts : s.water_stations with
    | nil => exact h
    | cons st rest => exact Or.inl h1.1
  · cases hfs : firesNeedingHelp s.fires s.buildings with
    | nil => exact h
    | cons f rest => exact Or.inr h1.2
  · exact h
  · exact h

theorem assign_targets_Inv (s : SimState) (h : Inv s) : Inv (assign_targets s) := by
  obtain ⟨hw, ⟨hre, hrs, hrf, hrb, hdt⟩, ht, hc1, hc2⟩ := h
  refine ⟨?_, ⟨?_, hrs, hrf, hrb, hdt⟩, ?_, ?_, hc2⟩
  · intro r' hr'
    obtain ⟨r, hr, hmap⟩ := List.mem_map.1 hr'
    obtain ⟨h1, h2, _, _⟩ := assignRobot_fields s r
    rw [← hmap, h1, h2]
    exact hw r hr
  · intro r' hr'
    obtain ⟨r, hr, hmap⟩ := List.mem_map.1 hr'
    obtain ⟨_, _, h3, _⟩ := assignRobot_fields s r
    rw [← hmap, h3]
    exact hre r hr
  · intro r' hr'
    obtain ⟨r, hr, hmap⟩ := List.mem_map.1 hr'
    rw [← hmap]
    exact assignRobot_targets s r (ht r hr)
  · show s.total_fires_extinguished =
      ((s.robots.map (assignRobot s)).map (fun r => r.fires_extinguished)).sum
    rw [List.map_map]
    simp only [Function.comp_def]
    rw [List.map_congr_left (fun r _ => (assignRobot_fields s r).2.2.2)]
    exact hc1

theorem updateRobot_spec (s : SimState) (r : Robot)
    (hw : 0 ≤ r.water_capacity) (hwm : r.water_capacity ≤ r.max_water_capacity)
    (hrate : 0 ≤ r.extinguish_rate)
    (hst : ∀ st ∈ s.water_stations, 0 ≤ st.refill_rate)
    (hb : ∀ b ∈ s.buildings, 0 ≤ b.fire_intensity)
    (hdt : 0 ≤ s.dt)
    (htg : r.target_building = none ∨ r.target_station = none) :
    (0 ≤ (updateRobot s r).1.water_capacity ∧
      (updateRobot s r).1.water_capacity ≤ (updateRobot s r).1.max_water_capacity) ∧
    (updateRobot s r).1.extinguish_rate = r.extinguish_rate ∧
    ((updateRobot s r).1.target_building = none ∨
      (updateRobot s r).1.target_station = none) ∧
    (∀ b ∈ (updateRobot s r).2.buildings, 0 ≤ b.fire_intensity) ∧
    (updateRobot s r).2.water_stations = s.water_stations ∧
    (updateRobot s r).2.dt = s.dt ∧
    (∀ f ∈ (updateRobot s r).2.fires, f ∈ s.fires) ∧
    (∃ d : ℕ, (updateRobot s r).1.fires_extinguished = r.fires_extinguished + d ∧
      (updateRobot s r).2.total_fires_extinguished = s.total_fires_extinguished + d ∧
      (updateRobot s r).2.response_times.length = s.response_times.length + d) := by
  cases hts : r.target_station with
  | some tsi =>
    have htb0 : r.target_building = none := by
      rcases htg with h | h
      · exact h
      · rw [hts] at h
        cases h
    have hrefill : 0 ≤ (s.water_stations.getD tsi default).refill_rate :=
      station_getD_refill_nonneg s.water_stations hst tsi
    have hmin0 : 0 ≤ min ((s.water_stations.getD tsi default).refill_rate * s.dt)
        (r.max_water_capacity - r.water_capacity) :=
      le_min (mul_nonneg hrefill hdt) (by linarith)
    have hmin1 : min ((s.water_stations.getD tsi default).refill_rate * s.dt)
        (r.max_water_capacity - r.water_capacity) ≤
        r.max_water_capacity - r.water_capacity := min_le_right _ _
    simp only [updateRobot, hts]
    split_ifs with h1 h2
    · refine ⟨⟨by simp only []; linarith, by simp only []; linarith⟩, by trivial,
        Or.inl (by simpa using htb0), hb, by trivial, by trivial, fun f hf => hf,
        ⟨0, by trivial, by trivial, by trivial⟩⟩
    · refine ⟨⟨by simp only []; linarith, by simp only []; linarith⟩, by trivial,
        Or.inl (by simpa using htb0), hb, by trivial, by trivial, fun f hf => hf,
        ⟨0, by trivial, by trivial, by trivial⟩⟩
    · refine ⟨⟨hw, hwm⟩, by trivial, Or.inl (by simpa using htb0), hb, by trivial,
        by trivial, fun f hf => hf, ⟨0, by trivial, by trivial, by trivial⟩⟩
  | none =>
    cases htb : r.target_building with
    | none =>
      simp only [updateRobot, hts, htb]
      refine ⟨⟨hw, hwm⟩, by trivial, Or.inl (by trivial), hb, by trivial, by trivial,
        fun f hf => hf, ⟨0, by trivial, by trivial, by trivial⟩⟩
    | some tbi =>
      have hI : 0 ≤ (s.buildings.getD tbi default).fire_intensity :=
        building_getD_intensity_nonneg s.buildings hb tbi
      have hamt0 : 0 ≤ min (r.extinguish_rate * s.dt)
          (min (s.buildings.getD tbi default).fire_intensity r.water_capacity) :=
        le_min (mul_nonneg hrate hdt) (le_min hI hw)
      have hamtw : min (r.extinguish_rate * s.dt)
          (min (s.buildings.getD tbi default).fire_intensity r.water_capacity) ≤
          r.water_capacity :=
        (min_le_right _ _).trans (min_le_right _ _)
      simp only [updateRobot, hts, htb]
      split_ifs with h1 h2 h3 h4
      · refine ⟨⟨hw, hwm⟩, by trivial, Or.inl (by trivial), hb, by trivial, by trivial,
          fun f hf => hf, ⟨0, by trivial, by trivial, by trivial⟩⟩
      · refine ⟨⟨by simp only []; linarith, by simp only []; linarith⟩, by trivial,
          Or.inl (by trivial), ?_, by trivial, by trivial,
          fun f hf => List.mem_of_mem_filter hf, ⟨1, by trivial, by trivial, by simp⟩⟩
        intro b hbmem
        rcases List.mem_or_eq_of_mem_set hbmem with hmem | heq
        · exact hb b hmem
        · rw [heq]
      · refine ⟨⟨by simp only []; linarith, by simp only []; linarith⟩, by trivial,
          Or.inr (by trivial), ?_, by trivial, by trivial, fun f hf => hf,
          ⟨0, by trivial, by trivial, by trivial⟩⟩
        intro b hbmem
        rcases List.mem_or_eq_of_mem_set hbmem with hmem | heq
        · exact hb b hmem
        · rw [heq]
          simp only []
          linarith [not_le.1 h4]
      · refine ⟨⟨hw, hwm⟩, by trivial, Or.inl (by trivial), hb, by trivial, by trivial,
          fun f hf => hf, ⟨0, by trivial, by trivial, by trivial⟩⟩
      · refine ⟨⟨hw, hwm⟩, by trivial, Or.inr (by trivial), hb, by trivial, by trivial,
          fun f hf => hf, ⟨0, by trivial, by trivial, by trivial⟩⟩

theorem updateRobotsAux_cons (r : Robot) (rs : List Robot) (s : SimState) :
    updateRobotsAux (r :: rs) s =
      ((updateRobot s r).1 :: (updateRobotsAux rs (updateRobot s r).2).1,
        (updateRobotsAux rs (updateRobot s r).2).2) := rfl

theorem updateRobotsAux_spec : ∀ (rs : List Robot) (s : SimState),
    (∀ r ∈ rs, (0 ≤ r.water_capacity ∧ r.water_capacity ≤ r.max_water_capacity) ∧
      0 ≤ r.extinguish_rate ∧ (r.target_building = none ∨ r.target_station = none)) →
    (∀ st ∈ s.water_stations, 0 ≤ st.refill_rate) →
    (∀ b ∈ s.buildings, 0 ≤ b.fire_intensity) →
    0 ≤ s.dt →
    (∀ r' ∈ (updateRobotsAux rs s).1,
      (0 ≤ r'.water_capacity ∧ r'.water_capacity ≤ r'.max_water_capacity) ∧
      0 ≤ r'.extinguish_rate ∧
      (r'.target_building = none ∨ r'.target_station = none)) ∧
    (∀ b ∈ (updateRobotsAux rs s).2.buildings, 0 ≤ b.fire_intensity) ∧
    (updateRobotsAux rs s).2.water_stations = s.water_stations ∧
    (updateRobotsAux rs s).2.dt = s.dt ∧
    (∀ f ∈ (updateRobotsAux rs s).2.fires, f ∈ s.fires) ∧
    ((updateRobotsAux rs s).2.total_fires_extinguished +
        (rs.map (fun r => r.fires_extinguished)).sum =
      s.total_fires_extinguished +
        ((updateRobotsAux rs s).1.map (fun r => r.fires_extinguished)).sum) ∧
    ((updateRobotsAux rs s).2.response_times.length +
        (rs.map (fun r => r.fires_extinguished)).sum =
      s.response_times.length +
        ((updateRobotsAux rs s).1.map (fun r => r.fires_extinguished)).sum) := by
  intro rs
  induction rs with
  | nil =>
    intro s _ hst hb hdt
    exact ⟨fun r hr => absurd hr (by simp [updateRobotsAux]), hb, rfl, rfl,
      fun f hf => hf, by simp [updateRobotsAux], by simp [updateRobotsAux]⟩
  | cons r rest ih =>
    intro s hrs hst hb hdt
    obtain ⟨hwb, hext, htgt, hb1, hstat1, hdt1, hfir1, ⟨d, hd1, hd2, hd3⟩⟩ :=
      updateRobot_spec s r (hrs r (by simp)).1.1 (hrs r (by simp)).1.2
        (hrs r (by simp)).2.1 hst hb hdt (hrs r (by simp)).2.2
    obtain ⟨Hr, Hb, Hst, Hdt, Hf, Hc1, Hc2⟩ :=
      ih (updateRobot s r).2 (fun r' hr' => hrs r' (by simp [hr']))
        (by rw [hstat1]; exact hst) hb1 (by rw [hdt1]; exact hdt)
    rw [updateRobotsAux_cons]
    refine ⟨?_, Hb, Hst.trans hstat1, Hdt.trans hdt1, fun f hf => hfir1 f (Hf f hf),
      ?_, ?_⟩
    · intro r' hr'
      rcases List.mem_cons.1 hr' with hcase | hcase
      · subst hcase
        exact ⟨hwb, by rw [hext]; exact (hrs r (by simp)).2.1, htgt⟩
      · exact Hr r' hcase
    · simp only [List.map_cons, List.sum_cons]
      omega
    · simp only [List.map_cons, List.sum_cons]
      omega

theorem update_robots_Inv (s : SimState) (h : Inv s) : Inv (update_robots s) := by
  obtain ⟨hw, ⟨hre, hrs, hrf, hrb, hdt⟩, ht, hc1, hc2⟩ := h
  obtain ⟨Hr, Hb, Hst, Hdt, Hf, Hc1, Hc2⟩ :=
    updateRobotsAux_spec s.robots s
      (fun r hr => ⟨hw r hr, hre r hr, ht r hr⟩) hrs hrb hdt
  show Inv { (updateRobotsAux s.robots s).2 with robots := (updateRobotsAux s.robots s).1 }
  refine ⟨fun r hr => (Hr r hr).1, ⟨fun r hr => (Hr r hr).2.1, ?_, ?_, Hb, ?_⟩,
    fun r hr => (Hr r hr).2.2, ?_, ?_⟩
  · rw [show ({ (updateRobotsAux s.robots s).2 with
      robots := (updateRobotsAux s.robots s).1 } : SimState).water_stations =
      (updateRobotsAux s.robots s).2.water_stations from rfl, Hst]
    exact hrs
  · intro f hf
    exact hrf f (Hf f hf)
  · rw [show ({ (updateRobotsAux s.robots s).2 with
      robots := (updateRobotsAux s.robots s).1 } : SimState).dt =
      (updateRobotsAux s.robots s).2.dt from rfl, Hdt]
    exact hdt
  · show (updateRobotsAux s.robots s).2.total_fires_extinguished =
      ((updateRobotsAux s.robots s).1.map (fun r => r.fires_extinguished)).sum
    omega
  · show (updateRobotsAux s.robots s).2.total_fires_extinguished =
      (updateRobotsAux s.robots s).2.response_times.length
    omega

theorem try_spread_validRNG (bs : List Building) (src : Building) (nf : List ℕ)
    (g : RNG) (hg : validRNG g) : validRNG (try_spread_fire bs src nf g).2 := by
  cases hl : bs.filter (fun b =>
      decide (¬ b.id = src.id ∧ b.on_fire = false ∧ b.destroyed = false ∧
        distance src.x src.y b.x b.y < 8)) with
  | nil =>
    simp only [try_spread_fire, hl]
    exact hg
  | cons b rest =>
    simp only [try_spread_fire, hl]
    split_ifs <;> exact validRNG_rdrop hg

theorem updateFire_spec (time dt : ℝ) (robots : List Robot) (bs : List Building)
    (dc : ℕ) (nf : List ℕ) (g : RNG) (fire : Fire)
    (hb : ∀ b ∈ bs, 0 ≤ b.fire_intensity) (hf : 0 ≤ fire.spread_rate) (hdt : 0 ≤ dt)
    (hg : validRNG g) :
    (updateFire time dt robots bs dc nf g fire).1.spread_rate = fire.spread_rate ∧
    (∀ b ∈ (updateFire time dt robots bs dc nf g fire).2.1, 0 ≤ b.fire_intensity) ∧
    validRNG (updateFire time dt robots bs dc nf g fire).2.2.2.2 := by
  have hI : 0 ≤ (bs.getD fire.building_id default).fire_intensity :=
    building_getD_intensity_nonneg bs hb fire.building_id
  have hcap : 0 ≤ min ((bs.getD fire.building_id default).fire_intensity +
      fire.spread_rate * dt * 0.7) 200 :=
    le_min (by positivity) (by norm_num)
  have hset : ∀ v : Building, 0 ≤ v.fire_intensity →
      ∀ b ∈ bs.set fire.building_id v, 0 ≤ b.fire_intensity := by
    intro v hv b hbmem
    rcases List.mem_or_eq_of_mem_set hbmem with hmem | heq
    · exact hb b hmem
    · rw [heq]
      exact hv
  simp only [updateFire]
  split_ifs with h1 h2 h3 h4
  · exact ⟨by trivial, hset _ hcap, hg⟩
  · exact ⟨by trivial, hset _ hcap,
      try_spread_validRNG _ _ _ _ (validRNG_rdrop hg)⟩
  · exact ⟨by trivial, hset _ hcap, validRNG_rdrop hg⟩
  · exact ⟨by trivial, hset _ hcap, hg⟩
  · exact ⟨by trivial, hb, hg⟩

theorem updateFiresAux_cons (time dt : ℝ) (robots : List Robot) (f : Fire)
    (fs : List Fire) (bs : List Building) (dc : ℕ) (nf : List ℕ) (g : RNG) :
    updateFiresAux time dt robots (f :: fs) bs dc nf g =
      ((updateFire time dt robots bs dc nf g f).1 ::
        (updateFiresAux time dt robots fs (updateFire time dt robots bs dc nf g f).2.1
          (updateFire time dt robots bs dc nf g f).2.2.1
          (updateFire time dt robots bs dc nf g f).2.2.2.1
          (updateFire time dt robots bs dc nf g f).2.2.2.2).1,
        (updateFiresAux time dt robots fs (updateFire time dt robots bs dc nf g f).2.1
          (updateFire time dt robots bs dc nf g f).2.2.1
          (updateFire time dt robots bs dc nf g f).2.2.2.1
          (updateFire time dt robots bs dc nf g f).2.2.2.2).2) := rfl

theorem updateFiresAux_spec (time dt : ℝ) (robots : List Robot) :
    ∀ (fs : List Fire) (bs : List Building) (dc : ℕ) (nf : List ℕ) (g : RNG),
    (∀ b ∈ bs, 0 ≤ b.fire_intensity) → (∀ f ∈ fs, 0 ≤ f.spread_rate) → 0 ≤ dt →
    validRNG g →
    (∀ f' ∈ (updateFiresAux time dt robots fs bs dc nf g).1, 0 ≤ f'.spread_rate) ∧
    (∀ b ∈ (updateFiresAux time dt robots fs bs dc nf g).2.1, 0 ≤ b.fire_intensity) ∧
    validRNG (updateFiresAux time dt robots fs bs dc nf g).2.2.2.2 := by
  intro fs
  induction fs with
  | nil =>
    intro bs dc nf g hb _ _ hg
    exact ⟨fun f hf => absurd hf (by simp [updateFiresAux]), hb, hg⟩
  | cons f rest ih =>
    intro bs dc nf g hb hfs hdt hg
    obtain ⟨hsr1, hb1, hg1⟩ :=
      updateFire_spec time dt robots bs dc nf g f hb (hfs f (by simp)) hdt hg
    obtain ⟨Hs, Hb, Hg⟩ := ih _ _ _ _ hb1 (fun f' hf' => hfs f' (by simp [hf'])) hdt hg1
    rw [updateFiresAux_cons]
    refine ⟨?_, Hb, Hg⟩
    intro f' hf'
    rcases List.mem_cons.1 hf' with hcase | hcase
    · rw [hcase, hsr1]
      exact hfs f (by simp)
    · exact Hs f' hcase

theorem start_fire_inv (s : SimState) (g : RNG) (i : ℕ) (hg : validRNG g)
    (hb : ∀ b ∈ s.buildings, 0 ≤ b.fire_intensity)
    (hf : ∀ f ∈ s.fires, 0 ≤ f.spread_rate) :
    (∀ b ∈ (start_fire s g i).1.buildings, 0 ≤ b.fire_intensity) ∧
    (∀ f ∈ (start_fire s g i).1.fires, 0 ≤ f.spread_rate) ∧
    (start_fire s g i).1.robots = s.robots ∧
    (start_fire s g i).1.water_stations = s.water_stations ∧
    (start_fire s g i).1.dt = s.dt ∧
    (start_fire s g i).1.total_fires_extinguished = s.total_fires_extinguished ∧
    (start_fire s g i).1.response_times = s.response_times ∧
    validRNG (start_fire s g i).2 := by
  obtain ⟨hb', hf'⟩ := start_fire_shape s g i
  refine ⟨?_, ?_, rfl, rfl, rfl, rfl, rfl, validRNG_rdrop (validRNG_rdrop hg)⟩
  · rw [hb']
    intro b hbmem
    rcases List.mem_or_eq_of_mem_set hbmem with hmem | heq
    · exact hb b hmem
    · rw [heq]
      have := (hg 0).1
      show (0 : ℝ) ≤ 50 + (100 - 50) * g 0
      nlinarith
  · rw [hf']
    intro f hfmem
    rcases List.mem_append.1 hfmem with hmem | hmem
    · exact hf f hmem
    · rw [List.mem_singleton.1 hmem]
      have := (hg 1).1
      show (0 : ℝ) ≤ 0.5 + (2 - 0.5) * rdrop g 0
      have h1 : rdrop g 0 = g 1 := rfl
      rw [h1]
      nlinarith

theorem igniteNew_spec : ∀ (ids : List ℕ) (s : SimState) (g : RNG), validRNG g →
    (∀ b ∈ s.buildings, 0 ≤ b.fire_intensity) →
    (∀ f ∈ s.fires, 0 ≤ f.spread_rate) →
    (∀ b ∈ (igniteNew ids s g).1.buildings, 0 ≤ b.fire_intensity) ∧
    (∀ f ∈ (igniteNew ids s g).1.fires, 0 ≤ f.spread_rate) ∧
    (igniteNew ids s g).1.robots = s.robots ∧
    (igniteNew ids s g).1.water_stations = s.water_stations ∧
    (igniteNew ids s g).1.dt = s.dt ∧
    (igniteNew ids s g).1.total_fires_extinguished = s.total_fires_extinguished ∧
    (igniteNew ids s g).1.response_times = s.response_times := by
  intro ids
  induction ids with
  | nil =>
    intro s g _ hb hf
    exact ⟨hb, hf, rfl, rfl, rfl, rfl, rfl⟩
  | cons i rest ih =>
    intro s g hg hb hf
    simp only [igniteNew]
    split_ifs with h1
    · obtain ⟨hb1, hf1, hr1, hs1, hd1, ht1, hresp1, hg1⟩ := start_fire_inv s g i hg hb hf
      obtain ⟨HB, HF, HR, HS, HD, HT, HResp⟩ :=
        ih { (start_fire s g i).1 with
             total_fires_started := (start_fire s g i).1.total_fires_started + 1 }
          (start_fire s g i).2 hg1 hb1 hf1
      exact ⟨HB, HF, HR.trans hr1, HS.trans hs1, HD.trans hd1, HT.trans ht1,
        HResp.trans hresp1⟩
    · exact ih s g hg hb hf

theorem update_fires_Inv (s : SimState) (g : RNG) (h : Inv s) (hg : validRNG g) :
    Inv (update_fires s g).1 := by
  obtain ⟨hw, ⟨hre, hrs, hrf, hrb, hdt⟩, ht, hc1, hc2⟩ := h
  set A := updateFiresAux s.time s.dt s.robots s.fires s.buildings
    s.total_buildings_destroyed [] g with hA
  obtain ⟨HS, HB, HG⟩ := updateFiresAux_spec s.time s.dt s.robots s.fires s.buildings
    s.total_buildings_destroyed [] g hrb hrf hdt hg
  rw [← hA] at HS HB HG
  obtain ⟨GB, GF, GR, GS, GD, GT, GResp⟩ :=
    igniteNew_spec A.2.2.2.1
      { s with fires := A.1, buildings := A.2.1, total_buildings_destroyed := A.2.2.1 }
      A.2.2.2.2 HG HB HS
  show Inv (igniteNew A.2.2.2.1
    { s with fires := A.1, buildings := A.2.1, total_buildings_destroyed := A.2.2.1 }
    A.2.2.2.2).1
  refine ⟨?_, ⟨?_, ?_, GF, GB, ?_⟩, ?_, ?_, ?_⟩
  · intro r hr
    rw [GR] at hr
    exact hw r hr
  · intro r hr
    rw [GR] at hr
    exact hre r hr
  · intro st hst
    rw [GS] at hst
    exact hrs st hst
  · rw [GD]
    exact hdt
  · intro r hr
    rw [GR] at hr
    exact ht r hr
  · rw [GT, GR]
    exact hc1
  · rw [GT, GResp]
    exact hc2

theorem step_Inv (s : SimState) (g : RNG) (h : Inv s) (hg : validRNG g) :
    Inv (step s g).1 := by
  obtain ⟨hw, ⟨hre, hrs, hrf, hrb, hdt⟩, ht, hc1, hc2⟩ :=
    update_fires_Inv (update_robots (assign_targets s)) g
      (update_robots_Inv (assign_targets s) (assign_targets_Inv s h)) hg
  show Inv { (update_fires (update_robots (assign_targets s)) g).1 with
             time := (update_fires (update_robots (assign_targets s)) g).1.time +
               (update_fires (update_robots (assign_targets s)) g).1.dt }
  exact ⟨hw, ⟨hre, hrs, hrf, hrb, hdt⟩, ht, hc1, hc2⟩

theorem robotProfile_bounds (u : ℝ) :
    0 ≤ (robotProfile u).2.2.2.1 ∧ 0 ≤ (robotProfile u).2.2.2.2 := by
  unfold robotProfile
  split_ifs <;> norm_num

theorem initRobots_head_shape (city : ℝ) (m i : ℕ) (g : RNG) :
    ∃ x y sp : ℝ,
    (initRobots city (m + 1) i g).1 =
      ⟨i, x, y, (robotProfile (g 0)).1, sp, none, none, false,
        (robotProfile (g 0)).2.2.2.1, (robotProfile (g 0)).2.2.2.1,
        (robotProfile (g 0)).2.2.2.2, 0, 0⟩ ::
      (initRobots city m (i + 1) (rdrop (rdrop (rdrop (rdrop g))))).1 :=
  ⟨_, _, _, rfl⟩

theorem initRobots_mem (city : ℝ) : ∀ (n i : ℕ) (g : RNG) (r : Robot),
    r ∈ (initRobots city n i g).1 →
    (0 ≤ r.water_capacity ∧ r.water_capacity ≤ r.max_water_capacity) ∧
    0 ≤ r.extinguish_rate ∧ r.target_building = none ∧ r.target_station = none ∧
    r.fires_extinguished = 0 := by
  intro n
  induction n with
  | zero => intro i g r hr; simp [initRobots] at hr
  | succ m ih =>
    intro i g r hr
    obtain ⟨x, y, sp, hshape⟩ := initRobots_head_shape city m i g
    rw [hshape] at hr
    rcases List.mem_cons.1 hr with hcase | hcase
    · obtain ⟨hw0, he0⟩ := robotProfile_bounds (g 0)
      rw [hcase]
      exact ⟨⟨hw0, le_refl _⟩, he0, rfl, rfl, rfl⟩
    · exact ih (i + 1) _ r hcase

theorem initStations_head_shape (city : ℝ) (gs m i : ℕ) (g : RNG) :
    ∃ x y : ℝ,
    (initStations city gs (m + 1) i g).1 =
      ⟨i, x, y, 50⟩ :: (initStations city gs m (i + 1) (rdrop (rdrop g))).1 :=
  ⟨_, _, rfl⟩

theorem initStations_refill (city : ℝ) (gs : ℕ) : ∀ (n i : ℕ) (g : RNG)
    (st : WaterStation), st ∈ (initStations city gs n i g).1 → st.refill_rate = 50 := by
  intro n
  induction n with
  | zero => intro i g st hst; simp [initStations] at hst
  | succ m ih =>
    intro i g st hst
    obtain ⟨x, y, hshape⟩ := initStations_head_shape city gs m i g
    rw [hshape] at hst
    rcases List.mem_cons.1 hst with hcase | hcase
    · rw [hcase]
    · exact ih (i + 1) _ st hcase

theorem initBuildings_head_shape (city : ℝ) (m i : ℕ) (g : RNG) :
    ∃ x y : ℝ,
    (initBuildings city (m + 1) i g).1 =
      ⟨i, x, y, false, 0, 0, false⟩ ::
        (initBuildings city m (i + 1) (rdrop (rdrop g))).1 :=
  ⟨_, _, rfl⟩

theorem initBuildings_intensity (city : ℝ) : ∀ (n i : ℕ) (g : RNG) (b : Building),
    b ∈ (initBuildings city n i g).1 → 0 ≤ b.fire_intensity := by
  intro n
  induction n with
  | zero => intro i g b hb; simp [initBuildings] at hb
  | succ m ih =>
    intro i g b hb
    obtain ⟨x, y, hshape⟩ := initBuildings_head_shape city m i g
    rw [hshape] at hb
    rcases List.mem_cons.1 hb with hcase | hcase
    · rw [hcase]
    · exact ih (i + 1) _ b hcase

theorem validRNG_initStations (city : ℝ) (gs : ℕ) : ∀ (n i : ℕ) (g : RNG),
    validRNG g → validRNG (initStations city gs n i g).2 := by
  intro n
  induction n with
  | zero => intro i g hg; exact hg
  | succ m ih => intro i g hg; exact ih (i + 1) _ (validRNG_rdrop (validRNG_rdrop hg))

theorem validRNG_initRobots (city : ℝ) : ∀ (n i : ℕ) (g : RNG),
    validRNG g → validRNG (initRobots city n i g).2 := by
  intro n
  induction n with
  | zero => intro i g hg; exact hg
  | succ m ih =>
    intro i g hg
    exact ih (i + 1) _
      (validRNG_rdrop (validRNG_rdrop (validRNG_rdrop (validRNG_rdrop hg))))

theorem igniteList_inv : ∀ (ids : List ℕ) (s : SimState) (g : RNG), validRNG g →
    (∀ b ∈ s.buildings, 0 ≤ b.fire_intensity) →
    (∀ f ∈ s.fires, 0 ≤ f.spread_rate) →
    (∀ b ∈ (igniteList ids s g).1.buildings, 0 ≤ b.fire_intensity) ∧
    (∀ f ∈ (igniteList ids s g).1.fires, 0 ≤ f.spread_rate) ∧
    (igniteList ids s g).1.robots = s.robots ∧
    (igniteList ids s g).1.water_stations = s.water_stations ∧
    (igniteList ids s g).1.dt = s.dt ∧
    (igniteList ids s g).1.total_fires_extinguished = s.total_fires_extinguished ∧
    (igniteList ids s g).1.response_times = s.response_times := by
  intro ids
  induction ids with
  | nil =>
    intro s g _ hb hf
    exact ⟨hb, hf, rfl, rfl, rfl, rfl, rfl⟩
  | cons i rest ih =>
    intro s g hg hb hf
    obtain ⟨hb1, hf1, hr1, hs1, hd1, ht1, hresp1, hg1⟩ := start_fire_inv s g i hg hb hf
    obtain ⟨HB, HF, HR, HS, HD, HT, HResp⟩ :=
      ih (start_fire s g i).1 (start_fire s g i).2 hg1 hb1 hf1
    exact ⟨HB, HF, HR.trans hr1, HS.trans hs1, HD.trans hd1, HT.trans ht1,
      HResp.trans hresp1⟩

theorem init_Inv (cfg : Config) (ids : List ℕ) (g : RNG) (hg : validRNG g) :
    Inv (initSim cfg ids g).1 := by
  have hg1 : validRNG (initBuildings cfg.city_size cfg.num_buildings 0 g).2 :=
    validRNG_initBuildings cfg.city_size cfg.num_buildings 0 g hg
  have hg2 : validRNG (initStations cfg.city_size (Nat.sqrt cfg.num_stations)
      cfg.num_stations 0 (initBuildings cfg.city_size cfg.num_buildings 0 g).2).2 :=
    validRNG_initStations cfg.city_size (Nat.sqrt cfg.num_stations) cfg.num_stations 0
      _ hg1
  have hg3 : validRNG (initRobots cfg.city_size cfg.num_robots 0
      (initStations cfg.city_size (Nat.sqrt cfg.num_stations) cfg.num_stations 0
        (initBuildings cfg.city_size cfg.num_buildings 0 g).2).2).2 :=
    validRNG_initRobots cfg.city_size cfg.num_robots 0 _ hg2
  set s0 : SimState :=
    { city_size := cfg.city_size
      num_robots := cfg.num_robots
      num_buildings := cfg.num_buildings
      num_fires := cfg.num_fires
      num_stations := cfg.num_stations
      buildings := (initBuildings cfg.city_size cfg.num_buildings 0 g).1
      robots := (initRobots cfg.city_size cfg.num_robots 0
        (initStations cfg.city_size (Nat.sqrt cfg.num_stations) cfg.num_stations 0
          (initBuildings cfg.city_size cfg.num_buildings 0 g).2).2).1
      fires := []
      water_stations := (initStations cfg.city_size (Nat.sqrt cfg.num_stations)
        cfg.num_stations 0 (initBuildings cfg.city_size cfg.num_buildings 0 g).2).1
      time := 0
      dt := 0.1
      total_fires_started := 0
      total_fires_extinguished := 0
      total_buildings_destroyed := 0
      response_times := [] } with hs0
  obtain ⟨HB, HF, HR, HS, HD, HT, HResp⟩ := igniteList_inv ids s0
    (initRobots cfg.city_size cfg.num_robots 0
      (initStations cfg.city_size (Nat.sqrt cfg.num_stations) cfg.num_stations 0
        (initBuildings cfg.city_size cfg.num_buildings 0 g).2).2).2 hg3
    (fun b hb => initBuildings_intensity cfg.city_size cfg.num_buildings 0 g b hb)
    (fun f hf => absurd hf (List.not_mem_nil f))
  have hrmem : ∀ r ∈ s0.robots,
      (0 ≤ r.water_capacity ∧ r.water_capacity ≤ r.max_water_capacity) ∧
      0 ≤ r.extinguish_rate ∧ r.target_building = none ∧ r.target_station = none ∧
      r.fires_extinguished = 0 := by
    rw [hs0]
    exact fun r hr => initRobots_mem cfg.city_size cfg.num_robots 0 _ r hr
  show Inv { (igniteList ids s0 _).1 with total_fires_started := cfg.num_fires }
  refine ⟨?_, ⟨?_, ?_, ?_, ?_, ?_⟩, ?_, ?_, ?_⟩
  · intro r hr
    rw [show ({ (igniteList ids s0 _).1 with
        total_fires_started := cfg.num_fires } : SimState).robots =
        (igniteList ids s0 _).1.robots from rfl, HR] at hr
    exact (hrmem r hr).1
  · intro r hr
    rw [show ({ (igniteList ids s0 _).1 with
        total_fires_started := cfg.num_fires } : SimState).robots =
        (igniteList ids s0 _).1.robots from rfl, HR] at hr
    exact (hrmem r hr).2.1
  · intro st hst
    rw [show ({ (igniteList ids s0 _).1 with
        total_fires_started := cfg.num_fires } : SimState).water_stations =
        (igniteList ids s0 _).1.water_stations from rfl, HS] at hst
    rw [initStations_refill cfg.city_size (Nat.sqrt cfg.num_stations)
      cfg.num_stations 0 _ st hst]
    norm_num
  · exact HF
  · exact HB
  · rw [show ({ (igniteList ids s0 _).1 with
        total_fires_started := cfg.num_fires } : SimState).dt =
        (igniteList ids s0 _).1.dt from rfl, HD]
    norm_num
  · intro r hr
    rw [show ({ (igniteList ids s0 _).1 with
        total_fires_started := cfg.num_fires } : SimState).robots =
        (igniteList ids s0 _).1.robots from rfl, HR] at hr
    exact Or.inl (hrmem r hr).2.2.1
  · rw [show ({ (igniteList ids s0 _).1 with
        total_fires_started := cfg.num_fires } : SimState).total_fires_extinguished =
        (igniteList ids s0 _).1.total_fires_extinguished from rfl, HT]
    rw [show ({ (igniteList ids s0 _).1 with
        total_fires_started := cfg.num_fires } : SimState).robots =
        (igniteList ids s0 _).1.robots from rfl, HR]
    symm
    apply List.sum_eq_zero
    intro x hx
    obtain ⟨r, hr, hfe⟩ := List.mem_map.1 hx
    rw [← hfe]
    exact (hrmem r hr).2.2.2.2
  · rw [show ({ (igniteList ids s0 _).1 with
        total_fires_started := cfg.num_fires } : SimState).total_fires_extinguished =
        (igniteList ids s0 _).1.total_fires_extinguished from rfl, HT]
    rw [show ({ (igniteList ids s0 _).1 with
        total_fires_started := cfg.num_fires } : SimState).response_times =
        (igniteList ids s0 _).1.response_times from rfl, HResp]
    rfl

theorem reachable_Inv : ∀ s : SimState, Reachable s → Inv s := by
  intro s h
  induction h with
  | init cfg ids g hg _ => exact init_Inv cfg ids g hg
  | tick s' g' _ hg ih => exact step_Inv s' g' ih hg

/-- Claim C4: at every reachable state, every robot's water capacity
lies between 0 and its maximum: refilling is clamped by the remaining
deficit and extinguishing by the remaining water. -/
theorem C4_water_bounds (s : SimState) (h : Reachable s) : WaterOk s :=
  (reachable_Inv s h).1

/-- Claim C5: at every reachable state no robot carries both a building
target and a station target: assignment only targets fully idle robots
and sets one field, the integrator only clears them. -/
theorem C5_exclusive_targets (s : SimState) (h : Reachable s) : TargetsOk s :=
  (reachable_Inv s h).2.2.1

/-- Claim C10: at every reachable state the world's extinguished
counter, the sum of the robots' counters and the number of recorded
response times coincide: the three records are only ever bumped
together in the extinguish branch. -/
theorem C10_counters_agree (s : SimState) (h : Reachable s) : CountersOk s :=
  (reachable_Inv s h).2.2.2

/-- A small config for the invariant witnesses: one robot, one building,
one fire, one station. -/
noncomputable def tinyCfg : Config := ⟨100, 1, 1, 1, 1⟩

/-- One reachable state: the tiny world right after initialization. -/
noncomputable def tinyInit : SimState := (initSim tinyCfg [0] gHalf).1

theorem tinyInit_reachable : Reachable tinyInit :=
  Reachable.init tinyCfg [0] gHalf (fun n => by norm_num [gHalf])
    ⟨by simp, rfl, by simp [tinyCfg]⟩

/-- Witness for C4. -/
theorem C4_water_bounds_witness : WaterOk tinyInit :=
  C4_water_bounds tinyInit tinyInit_reachable

/-- Witness for C5. -/
theorem C5_exclusive_targets_witness : TargetsOk tinyInit :=
  C5_exclusive_targets tinyInit tinyInit_reachable

/-- Witness for C10. -/
theorem C10_counters_agree_witness : CountersOk tinyInit :=
  C10_counters_agree tinyInit tinyInit_reachable

end RescueBots
